import Mathlib

/-!
Shallow embedding of the filetrack library (src/filetrack.c, version 0.9.5).

The translation unit defines the DEBUG macro unconditionally at its top, so the
embedding models the debug build; the targets the file supports (C11 / POSIX)
also define MAYBE_ERRNO_THREAD_LOCAL, so the errno save/restore sequences are
included.

Modelling conventions:
* a FILE pointer is a natural number (its address), 0 standing for NULL;
* a nullable C string is an Option String;
* the two mhashtable stores are association lists with insert-or-overwrite
  semantics, consumed exactly as the code consumes the external store
  (create, point lookup, insert, enumerate);
* fallible external calls (string duplication, hash-table insertion, the
  platform fopen/tmpfile/freopen/fclose/remove) are resolved by explicit
  oracle arguments, and a platform call leaves errno at an oracle-chosen
  value, as C permits;
* the global lock makes every public operation atomic, so the sequential
  embedding models each public wrapper as its without_lock body.
-/

namespace Filetrack

/-- A stream handle: the numeric identity of a FILE pointer; 0 stands for NULL. -/
abbrev Handle := Nat

/-- Result value of a FILE*-returning wrapper.  The constructor
`indeterminate` models the bare `return;` statements (with no value) that
filetrack_fopen (line 356) and filetrack_freopen (line 469) execute when
filename_len_max < 1: in a function returning FILE* the value received by the
caller is then indeterminate (and the construct is a C99 constraint
violation). -/
inductive CFile where
  | null
  | handle (h : Handle)
  | indeterminate
  deriving Repr, DecidableEq

/-- FileOpenType from ft_llapi.h. -/
inductive FileOpenType where
  | FILE_NOT_OPEN
  | FILE_OPEN_FOPEN
  | FILE_OPEN_TMPFILE
  | FILE_OPEN_FREOPEN
  | FILE_OPEN_UNKNOWN
  deriving Repr, DecidableEq

/-- FileClosedType from ft_llapi.h. -/
inductive FileClosedType where
  | FILE_NOT_CLOSED
  | FILE_CLOSED_FCLOSE
  | FILE_CLOSED_FREOPEN
  | FILE_CLOSED_UNKNOWN
  deriving Repr, DecidableEq

/-- FileTrackEntry (filetrack.c lines 87..102, debug build), field for field. -/
structure FileTrackEntry where
  stream : Handle
  filename : Option String
  mode : Option String
  open_file : Option String
  last_change_mode_file : Option String
  close_file : Option String
  open_line : Int
  last_change_mode_line : Int
  close_line : Int
  open_type : FileOpenType
  closed_type : FileClosedType
  is_closed : Bool
  deriving Repr, DecidableEq

/-- FilenameStreamEntry (filetrack.c lines 106..109): one filename-index row. -/
structure FilenameStreamEntry where
  filename : String
  stream : Handle
  deriving Repr, DecidableEq

/-- errno value EINVAL (Linux). -/
def EINVAL : Int := 22

/-- errno value EPERM (Linux). -/
def EPERM : Int := 1

/-- errno value EPROTO (Linux). -/
def EPROTO : Int := 71

/-- The EOF failure value returned by the close wrapper. -/
def EOF : Int := -1

/-- FT_MODE_LEN_MAX (filetrack.c line 67). -/
def FT_MODE_LEN_MAX : Nat := 16

/-- Insert-or-overwrite on an association list: the store operation of the
external mhashtable library (mht_uint_set / mht_str_set), which overwrites the
value of an existing key and otherwise appends a fresh row. -/
def mht_set {α β : Type} [DecidableEq α] (t : List (α × β)) (k : α) (v : β) :
    List (α × β) :=
  match t with
  | [] => [(k, v)]
  | (k2, v2) :: rest => if k = k2 then (k, v) :: rest else (k2, v2) :: mht_set rest k v

/-- Point lookup on an association list: mht_uint_get / mht_str_get of the
external mhashtable library. -/
def mht_get {α β : Type} [DecidableEq α] (t : List (α × β)) (k : α) : Option β :=
  match t with
  | [] => none
  | (k2, v2) :: rest => if k = k2 then some v2 else mht_get rest k

/-- Bounded copy of the character data of a string: the data produced by a
successful bounded duplication (at most n bytes are copied; the inputs of
interest are ASCII, so bytes are modelled as characters). -/
def strnTake (s : String) (n : Nat) : String := String.mk (s.data.take n)

/-- Modelled from the spec: mutils_strndup comes from the external mutils
library, whose source is not part of this repository.  Per the documentation
of the identical public helper filetrack_strndup (filetrack.h lines 191..198)
it returns a newly allocated bounded duplicate of the input string, or NULL on
failure; `ok := false` models allocation failure.  Its result on a NULL input
string is not determined by anything in the repository, so it is supplied by
the caller as `nullRes`. -/
def mutils_strndup (ok : Bool) (nullRes : Option String) (s : Option String)
    (max : Nat) : Option String :=
  match s with
  | some str => if ok then some (strnTake str max) else none
  | none => nullRes

/-- Modelled from the spec: mutils_strnlen comes from the external mutils
library, whose source is not part of this repository; it is the bounded string
length, and its failure result (used by can_be_removed_check for an absent or
empty name) is 0. -/
def mutils_strnlen (s : Option String) (max : Nat) : Nat :=
  match s with
  | some str => min str.data.length max
  | none => 0

/-- The mutable global state of the tracker: the two store pointers (none is
the NULL pointer, before lazy initialization or after a failed creation), the
per-thread last-failing-operation name filetrack_errfunc, and errno. -/
structure FTState where
  filetrack_entries : Option (List (Handle × FileTrackEntry))
  filename_stream_entries : Option (List (String × FilenameStreamEntry))
  filetrack_errfunc : Option String
  errno : Int
  deriving Repr, DecidableEq

/-- The process-start state: both store pointers NULL, no recorded error. -/
def ftInitialState : FTState :=
  { filetrack_entries := none, filename_stream_entries := none,
    filetrack_errfunc := none, errno := 0 }

/-- init (filetrack.c lines 138..158).  The primary store creation is retried
up to FILETRACK_ENTRIES_TRIAL times and the process exits on total failure, so
the embedding models the successful creation (the failure path terminates the
process and yields no state); atexit registers the shutdown sweep and has no
registry effect.  Creation of the filename index may fail, leaving that store
NULL and recording the error. -/
def init (indexOk : Bool) (s : FTState) : FTState :=
  let s1 := { s with filetrack_entries := some ([] : List (Handle × FileTrackEntry)) }
  if indexOk then
    { s1 with filename_stream_entries := some ([] : List (String × FilenameStreamEntry)) }
  else
    { s1 with filename_stream_entries := none, filetrack_errfunc := some "init" }

/-- Outcomes of the fallible external calls made by filetrack_entry_add. -/
structure AddOracle where
  initIndexOk : Bool
  dupFilenameOk : Bool
  dupModeOk : Bool
  setEntryOk : Bool
  setIndexOk : Bool
  strndupNullRes : Option String
  deriving Repr, DecidableEq

/-- The filename-index side effect at the end of filetrack_entry_add
(filetrack.c lines 220..232): unless the duplicated mode is the tmpfile
sentinel, insert or overwrite the index row keyed by the duplicated filename.
When the duplicated mode is NULL the strncmp against the sentinel is undefined
in C and is modelled as not matching; inserting with a NULL key or through a
NULL store pointer is modelled as the insertion failing. -/
def filetrack_add_index_row (setIndexOk : Bool) (s4 : FTState)
    (filename_cpy mode_cpy : Option String) (stream : Handle) : FTState :=
  if mode_cpy = some "(tmpfile)" then s4
  else
    match filename_cpy with
    | none => { s4 with filetrack_errfunc := some "filetrack_entry_add" }
    | some fn_c =>
      match s4.filename_stream_entries with
      | none => { s4 with filetrack_errfunc := some "filetrack_entry_add" }
      | some idx =>
        if setIndexOk then
          { s4 with filename_stream_entries := some (mht_set idx fn_c { filename := fn_c, stream := stream }) }
        else { s4 with filetrack_errfunc := some "filetrack_entry_add" }

/-- filetrack_entry_add (filetrack.c lines 161..233, debug build). -/
def filetrack_entry_add (o : AddOracle) (s : FTState) (stream : Handle)
    (open_type : FileOpenType) (filename mode : Option String)
    (filename_len_max : Nat) (file : Option String) (line : Int) : FTState :=
  if stream = 0 then
    { s with errno := EINVAL, filetrack_errfunc := some "filetrack_entry_add" }
  else
    let s1 := if s.filetrack_entries = none then init o.initIndexOk s else s
    if filename_len_max < 1 then
      { s1 with errno := EINVAL, filetrack_errfunc := some "filetrack_entry_add" }
    else
      let filename_cpy := mutils_strndup o.dupFilenameOk o.strndupNullRes filename filename_len_max
      let s2 := if filename_cpy = none then
        { s1 with filetrack_errfunc := some "filetrack_entry_add" } else s1
      let mode_cpy := mutils_strndup o.dupModeOk o.strndupNullRes mode FT_MODE_LEN_MAX
      let s3 := if mode_cpy = none then
        { s2 with filetrack_errfunc := some "filetrack_entry_add" } else s2
      let entry : FileTrackEntry :=
        { stream := stream, filename := filename_cpy, mode := mode_cpy,
          open_file := file, last_change_mode_file := none, close_file := none,
          open_line := line, last_change_mode_line := 0, close_line := 0,
          open_type := open_type, closed_type := FileClosedType.FILE_NOT_CLOSED,
          is_closed := false }
      if o.setEntryOk = false then
        { s3 with filetrack_errfunc := some "filetrack_entry_add" }
      else
        let s4 := { s3 with filetrack_entries := some (mht_set (s3.filetrack_entries.getD []) stream entry) }
        filetrack_add_index_row o.setIndexOk s4 filename_cpy mode_cpy stream

/-- Outcomes of the fallible external calls made by filetrack_entry_update
(including those of the filetrack_entry_add it may perform). -/
structure UpdateOracle where
  initIndexOk : Bool
  dupModeOk : Bool
  strndupNullRes : Option String
  addO : AddOracle
  deriving Repr, DecidableEq

/-- filetrack_entry_update (filetrack.c lines 237..284, debug build).  A
non-NULL filename terminates the process (exit(EXIT_FAILURE)), modelled as the
result none. -/
def filetrack_entry_update (o : UpdateOracle) (s : FTState) (stream : Handle)
    (filename mode : Option String) (file : Option String) (line : Int) :
    Option FTState :=
  if filename ≠ none then none
  else if stream = 0 then
    some { s with errno := EINVAL, filetrack_errfunc := some "filetrack_entry_update" }
  else if s.filetrack_entries = none then
    let s1 := init o.initIndexOk s
    let s2 := { s1 with errno := EPERM, filetrack_errfunc := some "filetrack_entry_update" }
    some (filetrack_entry_add o.addO s2 stream FileOpenType.FILE_OPEN_UNKNOWN
      (some "unknown") mode 8 file line)
  else
    match mht_get (s.filetrack_entries.getD []) stream with
    | none =>
      let s2 := { s with filetrack_errfunc := some "filetrack_entry_update" }
      some (filetrack_entry_add o.addO s2 stream FileOpenType.FILE_OPEN_UNKNOWN
        (some "unknown") mode 8 file line)
    | some entry =>
      let mode_cpy := mutils_strndup o.dupModeOk o.strndupNullRes mode FT_MODE_LEN_MAX
      let s2 := if mode_cpy = none then
        { s with filetrack_errfunc := some "filetrack_entry_update" } else s
      let entry2 := { entry with mode := mode_cpy, last_change_mode_file := file, last_change_mode_line := line }
      some { s2 with filetrack_entries := some (mht_set (s.filetrack_entries.getD []) stream entry2) }

/-- filetrack_entry_close (filetrack.c lines 287..320, debug build): the found
entry is overwritten in place with the closed marking, with no check of its
previous closed state; a missing entry only records the error. -/
def filetrack_entry_close (io : Bool) (s : FTState) (stream : Handle)
    (closed_type : FileClosedType) (file : Option String) (line : Int) : FTState :=
  if stream = 0 then
    { s with errno := EINVAL, filetrack_errfunc := some "filetrack_entry_close" }
  else if s.filetrack_entries = none then
    let s1 := init io s
    { s1 with errno := EPERM, filetrack_errfunc := some "filetrack_entry_close" }
  else
    match mht_get (s.filetrack_entries.getD []) stream with
    | none => { s with filetrack_errfunc := some "filetrack_entry_close" }
    | some entry =>
      let entry2 := { entry with is_closed := true, closed_type := closed_type, close_file := file, close_line := line }
      { s with filetrack_entries := some (mht_set (s.filetrack_entries.getD []) stream entry2) }

/-- The errno save/restore discipline the wrappers place around each internal
lifecycle call (the MAYBE_ERRNO_THREAD_LOCAL pattern, e.g. filetrack.c lines
381..391): stash errno, run the call with errno zeroed, record the wrapper
name if the call set errno, and otherwise restore the stashed value. -/
def errnoGuard (name : String) (f : FTState → FTState) (s : FTState) : FTState :=
  let tmp := s.errno
  let s2 := f { s with errno := 0 }
  if s2.errno ≠ 0 then { s2 with filetrack_errfunc := some name }
  else { s2 with errno := tmp }

/-- Process constants: the handles of the three standard streams (arbitrary
distinct nonzero addresses fixed by the platform). -/
structure StdStreams where
  stdinH : Handle
  stdoutH : Handle
  stderrH : Handle
  deriving Repr, DecidableEq

/-- Result of a FILE*-returning wrapper: the returned value, whether the real
platform call was invoked, and the state after the call. -/
structure StreamRet where
  ret : CFile
  platformInvoked : Bool
  state : FTState
  deriving Repr, DecidableEq

/-- Result of an int-returning wrapper (fclose, remove). -/
structure IntRet where
  ret : Int
  platformInvoked : Bool
  state : FTState
  deriving Repr, DecidableEq

/-- Outcomes of the fallible external calls made by filetrack_fopen:
the two bounded duplications, the platform fopen (none = it returned NULL),
the errno value it leaves behind, and the oracle of the entry_add it performs. -/
structure FopenOracle where
  dupFilenameOk : Bool
  dupModeOk : Bool
  platformOpen : Option Handle
  platformErrno : Int
  addO : AddOracle
  deriving Repr, DecidableEq

/-- filetrack_fopen (filetrack.c lines 323..402; the public function wraps the
without_lock body in the global lock, a no-op of the sequential embedding).
The filename_len_max < 1 branch executes a bare `return;` (line 356), so its
returned FILE* is indeterminate. -/
def filetrack_fopen (o : FopenOracle) (s : FTState) (filename mode : Option String)
    (filename_len_max : Nat) (file : Option String) (line : Int) : StreamRet :=
  match filename with
  | none => { ret := CFile.null, platformInvoked := false, state := { s with errno := EINVAL, filetrack_errfunc := some "filetrack_fopen" } }
  | some fn =>
  if fn = "" then
    { ret := CFile.null, platformInvoked := false, state := { s with errno := EINVAL, filetrack_errfunc := some "filetrack_fopen" } }
  else match mode with
  | none => { ret := CFile.null, platformInvoked := false, state := { s with errno := EINVAL, filetrack_errfunc := some "filetrack_fopen" } }
  | some md =>
  if md = "" then
    { ret := CFile.null, platformInvoked := false, state := { s with errno := EINVAL, filetrack_errfunc := some "filetrack_fopen" } }
  else if filename_len_max < 1 then
    { ret := CFile.indeterminate, platformInvoked := false, state := { s with errno := EINVAL, filetrack_errfunc := some "filetrack_fopen" } }
  else if o.dupFilenameOk = false then
    { ret := CFile.null, platformInvoked := false, state := { s with filetrack_errfunc := some "filetrack_fopen" } }
  else if o.dupModeOk = false then
    { ret := CFile.null, platformInvoked := false, state := { s with filetrack_errfunc := some "filetrack_fopen" } }
  else
    match o.platformOpen with
    | none =>
      { ret := CFile.null, platformInvoked := true, state := { s with errno := o.platformErrno, filetrack_errfunc := some "filetrack_fopen" } }
    | some h =>
      let s1 := { s with errno := o.platformErrno }
      let s4 := errnoGuard "filetrack_fopen" (fun st => filetrack_entry_add o.addO st h FileOpenType.FILE_OPEN_FOPEN filename mode filename_len_max file line) s1
      { ret := CFile.handle h, platformInvoked := true, state := s4 }

/-- Outcomes of the fallible external calls made by filetrack_tmpfile. -/
structure TmpfileOracle where
  platformOpen : Option Handle
  platformErrno : Int
  addO : AddOracle
  deriving Repr, DecidableEq

/-- filetrack_tmpfile (filetrack.c lines 405..433). -/
def filetrack_tmpfile (o : TmpfileOracle) (s : FTState) (file : Option String)
    (line : Int) : StreamRet :=
  match o.platformOpen with
  | none =>
    { ret := CFile.null, platformInvoked := true, state := { s with errno := EINVAL, filetrack_errfunc := some "filetrack_tmpfile" } }
  | some h =>
    let s1 := { s with errno := o.platformErrno }
    let s4 := errnoGuard "filetrack_tmpfile" (fun st => filetrack_entry_add o.addO st h FileOpenType.FILE_OPEN_TMPFILE (some "unknown") (some "(tmpfile)") 8 file line) s1
    { ret := CFile.handle h, platformInvoked := true, state := s4 }

/-- Outcomes of the fallible external calls made by filetrack_freopen. -/
structure FreopenOracle where
  dupFilenameOk : Bool
  dupModeOk : Bool
  strndupNullRes : Option String
  platformReopen : Option Handle
  platformErrno : Int
  closeInitIndexOk : Bool
  updO : UpdateOracle
  addO : AddOracle
  deriving Repr, DecidableEq

/-- filetrack_freopen (filetrack.c lines 436..544).  The result none models
process termination (possible only through the entry_update it performs, which
never terminates here because the update is reached only with an absent
filename).  The filename_len_max < 1 branch executes a bare `return;`
(line 469), so its returned FILE* is indeterminate. -/
def filetrack_freopen (o : FreopenOracle) (std : StdStreams) (s : FTState)
    (filename mode : Option String) (stream : Handle) (filename_len_max : Nat)
    (file : Option String) (line : Int) : Option StreamRet :=
  if filename = some "" then
    some { ret := CFile.null, platformInvoked := false, state := { s with errno := EINVAL, filetrack_errfunc := some "filetrack_freopen" } }
  else match mode with
  | none => some { ret := CFile.null, platformInvoked := false, state := { s with errno := EINVAL, filetrack_errfunc := some "filetrack_freopen" } }
  | some md =>
  if md = "" then
    some { ret := CFile.null, platformInvoked := false, state := { s with errno := EINVAL, filetrack_errfunc := some "filetrack_freopen" } }
  else if stream = 0 then
    some { ret := CFile.null, platformInvoked := false, state := { s with errno := EINVAL, filetrack_errfunc := some "filetrack_freopen" } }
  else if filename_len_max < 1 then
    some { ret := CFile.indeterminate, platformInvoked := false, state := { s with errno := EINVAL, filetrack_errfunc := some "filetrack_freopen" } }
  else
    let filename_tmp := mutils_strndup o.dupFilenameOk o.strndupNullRes filename filename_len_max
    match filename_tmp with
    | none => some { ret := CFile.null, platformInvoked := false, state := { s with filetrack_errfunc := some "filetrack_freopen" } }
    | some _ =>
    let mode_tmp := mutils_strndup o.dupModeOk o.strndupNullRes mode FT_MODE_LEN_MAX
    match mode_tmp with
    | none => some { ret := CFile.null, platformInvoked := false, state := { s with filetrack_errfunc := some "filetrack_freopen" } }
    | some _ =>
    match o.platformReopen with
    | none =>
      let s1 := { s with errno := o.platformErrno, filetrack_errfunc := some "filetrack_freopen" }
      let s2 := filetrack_entry_close o.closeInitIndexOk s1 stream FileClosedType.FILE_CLOSED_FREOPEN file line
      some { ret := CFile.null, platformInvoked := true, state := s2 }
    | some ns =>
      let s1 := { s with errno := o.platformErrno }
      if stream = std.stdinH ∨ stream = std.stdoutH ∨ stream = std.stderrH then
        some { ret := CFile.handle ns, platformInvoked := true, state := s1 }
      else match filename with
      | none =>
        let tmp := s1.errno
        let s2 := { s1 with errno := 0 }
        match filetrack_entry_update o.updO s2 ns filename mode file line with
        | none => none
        | some s3 =>
          let s4 := if s3.errno ≠ 0 then { s3 with filetrack_errfunc := some "filetrack_freopen" } else { s3 with errno := tmp }
          some { ret := CFile.handle ns, platformInvoked := true, state := s4 }
      | some _ =>
        let s4 := errnoGuard "filetrack_freopen" (fun st => filetrack_entry_close o.closeInitIndexOk st stream FileClosedType.FILE_CLOSED_FREOPEN file line) s1
        let s7 := errnoGuard "filetrack_freopen" (fun st => filetrack_entry_add o.addO st ns FileOpenType.FILE_OPEN_FREOPEN filename mode filename_len_max file line) s4
        some { ret := CFile.handle ns, platformInvoked := true, state := s7 }

/-- Outcomes of the fallible external calls made by filetrack_fclose: the
return value of the real fclose, the errno value it leaves behind, and the
index-creation outcome of a lazy initialization. -/
structure FcloseOracle where
  initIndexOk : Bool
  platformClose : Int
  platformErrno : Int
  deriving Repr, DecidableEq

/-- filetrack_fclose (filetrack.c lines 547..640, debug build). -/
def filetrack_fclose (o : FcloseOracle) (std : StdStreams) (s : FTState)
    (stream : Handle) (file : Option String) (line : Int) : IntRet :=
  if stream = 0 then
    { ret := EOF, platformInvoked := false, state := { s with errno := EINVAL, filetrack_errfunc := some "filetrack_fclose" } }
  else if stream = std.stdinH then
    { ret := EOF, platformInvoked := false, state := { s with errno := EINVAL, filetrack_errfunc := some "filetrack_fclose" } }
  else if stream = std.stdoutH then
    { ret := EOF, platformInvoked := false, state := { s with errno := EINVAL, filetrack_errfunc := some "filetrack_fclose" } }
  else if stream = std.stderrH then
    { ret := EOF, platformInvoked := false, state := { s with errno := EINVAL, filetrack_errfunc := some "filetrack_fclose" } }
  else if s.filetrack_entries = none then
    let s1 := init o.initIndexOk s
    let s2 := { s1 with errno := EPERM, filetrack_errfunc := some "filetrack_fclose" }
    let s3 := { s2 with errno := o.platformErrno }
    let s4 := if o.platformClose ≠ 0 then { s3 with filetrack_errfunc := some "filetrack_fclose" } else s3
    { ret := o.platformClose, platformInvoked := true, state := s4 }
  else
    match mht_get (s.filetrack_entries.getD []) stream with
    | none =>
      let s2 := { s with filetrack_errfunc := some "filetrack_fclose" }
      let s3 := { s2 with errno := o.platformErrno }
      let s4 := if o.platformClose ≠ 0 then { s3 with filetrack_errfunc := some "filetrack_fclose" } else s3
      { ret := o.platformClose, platformInvoked := true, state := s4 }
    | some entry =>
      if entry.is_closed then
        { ret := EOF, platformInvoked := false, state := { s with errno := EINVAL, filetrack_errfunc := some "filetrack_fclose" } }
      else
        let s1 := { s with errno := o.platformErrno }
        let s2 := if o.platformClose ≠ 0 then { s1 with filetrack_errfunc := some "filetrack_fclose" } else s1
        let s5 := errnoGuard "filetrack_fclose" (fun st => filetrack_entry_close o.initIndexOk st stream FileClosedType.FILE_CLOSED_FCLOSE file line) s2
        { ret := o.platformClose, platformInvoked := true, state := s5 }

/-- can_be_removed_check (filetrack.c lines 644..675): the deletion guard.
Looking up the primary store through a NULL pointer is modelled as the lookup
finding nothing (the corruption branch of the code). -/
def can_be_removed_check (s : FTState) (filename : String) (filename_len_max : Nat)
    (_file : Option String) (_line : Int) : Bool × FTState :=
  let filename_len := mutils_strnlen (some filename) filename_len_max
  if filename_len = 0 then
    (true, { s with filetrack_errfunc := some "filetrack_remove" })
  else
    let key := strnTake filename filename_len
    match mht_get (s.filename_stream_entries.getD []) key with
    | none => (true, s)
    | some fse =>
      match mht_get (s.filetrack_entries.getD []) fse.stream with
      | none => (true, { s with errno := EPROTO, filetrack_errfunc := some "filetrack_remove" })
      | some entry =>
        if entry.is_closed then (true, s)
        else (false, { s with errno := EINVAL, filetrack_errfunc := some "filetrack_remove" })

/-- Outcomes of the platform remove call. -/
structure RemoveOracle where
  platformRemove : Int
  platformErrno : Int
  deriving Repr, DecidableEq

/-- filetrack_remove (filetrack.c lines 678..709, debug build). -/
def filetrack_remove (o : RemoveOracle) (s : FTState) (filename : Option String)
    (filename_len_max : Nat) (file : Option String) (line : Int) : IntRet :=
  match filename with
  | none => { ret := 1, platformInvoked := false, state := { s with errno := EINVAL, filetrack_errfunc := some "filetrack_remove" } }
  | some fn =>
  if fn = "" then
    { ret := 1, platformInvoked := false, state := { s with errno := EINVAL, filetrack_errfunc := some "filetrack_remove" } }
  else if filename_len_max < 1 then
    { ret := 1, platformInvoked := false, state := { s with errno := EINVAL, filetrack_errfunc := some "filetrack_remove" } }
  else
    let checked : Bool × FTState :=
      if s.filename_stream_entries = none then (true, s)
      else can_be_removed_check s fn filename_len_max file line
    if checked.1 = false then
      { ret := 1, platformInvoked := false, state := checked.2 }
    else
      let s1 := { checked.2 with errno := o.platformErrno }
      let s2 := if o.platformRemove ≠ 0 then { s1 with filetrack_errfunc := some "filetrack_remove" } else s1
      { ret := o.platformRemove, platformInvoked := true, state := s2 }

/-- Consistency of the closed marking of one entry: the three conditions
is_closed = false, closed_type = FILE_NOT_CLOSED and close_file absent agree. -/
def EntryOk (e : FileTrackEntry) : Prop :=
  (e.is_closed = false ↔ e.closed_type = FileClosedType.FILE_NOT_CLOSED) ∧
  (e.is_closed = false ↔ e.close_file = none)

/-- Every entry of the primary store satisfies EntryOk. -/
def StateOk (s : FTState) : Prop :=
  ∀ p ∈ (s.filetrack_entries.getD ([] : List (Handle × FileTrackEntry))), EntryOk p.2

/-- One public operation of the tracker, as a transition on the global state.
Close transitions (the low-level close and the two wrappers that perform one)
are restricted to a present caller site, and the low-level close also to a
definite closed kind, the form every in-repo caller uses. -/
inductive FTStep : FTState → FTState → Prop where
  | add (s : FTState) (o : AddOracle) (stream : Handle) (ot : FileOpenType)
      (fn md : Option String) (k : Nat) (fl : Option String) (ln : Int) :
      FTStep s (filetrack_entry_add o s stream ot fn md k fl ln)
  | update (s s2 : FTState) (o : UpdateOracle) (stream : Handle)
      (fn md : Option String) (fl : Option String) (ln : Int)
      (h : filetrack_entry_update o s stream fn md fl ln = some s2) :
      FTStep s s2
  | close (s : FTState) (io : Bool) (stream : Handle) (ct : FileClosedType)
      (fl : Option String) (ln : Int) (hct : ct ≠ FileClosedType.FILE_NOT_CLOSED)
      (hfl : fl ≠ none) :
      FTStep s (filetrack_entry_close io s stream ct fl ln)
  | fopen (s : FTState) (o : FopenOracle) (fn md : Option String) (k : Nat)
      (fl : Option String) (ln : Int) :
      FTStep s (filetrack_fopen o s fn md k fl ln).state
  | tmpfile (s : FTState) (o : TmpfileOracle) (fl : Option String) (ln : Int) :
      FTStep s (filetrack_tmpfile o s fl ln).state
  | freopen (s : FTState) (r : StreamRet) (o : FreopenOracle) (std : StdStreams)
      (fn md : Option String) (stream : Handle) (k : Nat) (fl : Option String)
      (ln : Int) (hfl : fl ≠ none)
      (h : filetrack_freopen o std s fn md stream k fl ln = some r) :
      FTStep s r.state
  | fclose (s : FTState) (o : FcloseOracle) (std : StdStreams) (stream : Handle)
      (fl : Option String) (ln : Int) (hfl : fl ≠ none) :
      FTStep s (filetrack_fclose o std s stream fl ln).state
  | remove (s : FTState) (o : RemoveOracle) (fn : Option String) (k : Nat)
      (fl : Option String) (ln : Int) :
      FTStep s (filetrack_remove o s fn k fl ln).state

/-- A state reachable from process start by public operations. -/
def Reachable (s : FTState) : Prop := Relation.ReflTransGen FTStep ftInitialState s

/-- An oracle under which every fallible external call of entry_add succeeds. -/
def addOracleOk : AddOracle :=
  { initIndexOk := true, dupFilenameOk := true, dupModeOk := true,
    setEntryOk := true, setIndexOk := true, strndupNullRes := none }

/-- A sample oracle for the open wrapper: duplications succeed and the
platform fopen returns the handle 5 leaving errno at 0. -/
def fopenOracle5 : FopenOracle :=
  { dupFilenameOk := true, dupModeOk := true, platformOpen := some 5,
    platformErrno := 0, addO := addOracleOk }

/-- Sample standard-stream handles. -/
def std0 : StdStreams := { stdinH := 101, stdoutH := 102, stderrH := 103 }

/-- A state with both stores initialized and empty and no recorded error. -/
def sReady : FTState :=
  { filetrack_entries := some [], filename_stream_entries := some [],
    filetrack_errfunc := none, errno := 0 }

/-- A sample open entry for the handle 5 on the name a.txt. -/
def entryOpen5 : FileTrackEntry :=
  { stream := 5, filename := some "a.txt", mode := some "r",
    open_file := some "m.c", last_change_mode_file := none, close_file := none,
    open_line := 7, last_change_mode_line := 0, close_line := 0,
    open_type := FileOpenType.FILE_OPEN_FOPEN,
    closed_type := FileClosedType.FILE_NOT_CLOSED, is_closed := false }

/-- The sample entry for the handle 5 after a close through the wrapper. -/
def entryClosed5 : FileTrackEntry :=
  { entryOpen5 with is_closed := true, closed_type := FileClosedType.FILE_CLOSED_FCLOSE, close_file := some "m.c", close_line := 30 }

/-- A state tracking the open handle 5 under the name a.txt. -/
def sOpen5 : FTState :=
  { filetrack_entries := some [(5, entryOpen5)],
    filename_stream_entries := some [("a.txt", { filename := "a.txt", stream := 5 })],
    filetrack_errfunc := none, errno := 0 }

/-- A state tracking the handle 5 as already closed, with a stale index row. -/
def sClosed5 : FTState :=
  { sOpen5 with filetrack_entries := some [(5, entryClosed5)] }

/-- An oracle under which every fallible external call of entry_update succeeds. -/
def updOracleOk : UpdateOracle :=
  { initIndexOk := true, dupModeOk := true, strndupNullRes := none, addO := addOracleOk }

/-- A sample reopen oracle: the platform freopen returns the new handle 9. -/
def freopenOracle9 : FreopenOracle :=
  { dupFilenameOk := true, dupModeOk := true, strndupNullRes := some "x",
    platformReopen := some 9, platformErrno := 0, closeInitIndexOk := true,
    updO := updOracleOk, addO := addOracleOk }

/-- A sample reopen oracle: the platform freopen returns the same handle 5. -/
def freopenOracleSame5 : FreopenOracle :=
  { freopenOracle9 with platformReopen := some 5 }

/-- The entry created by a successful add of handle 1 on a.txt used below. -/
def c9entry : FileTrackEntry :=
  { stream := 1, filename := some (strnTake "a.txt" 100), mode := some (strnTake "r" FT_MODE_LEN_MAX),
    open_file := some "f.c", last_change_mode_file := none, close_file := none,
    open_line := 1, last_change_mode_line := 0, close_line := 0,
    open_type := FileOpenType.FILE_OPEN_FOPEN,
    closed_type := FileClosedType.FILE_NOT_CLOSED, is_closed := false }

theorem mem_mht_set {α β : Type} [DecidableEq α] (t : List (α × β)) (k : α) (v : β)
    (p : α × β) (hp : p ∈ mht_set t k v) : p = (k, v) ∨ p ∈ t := by
  induction t with
  | nil => simpa [mht_set] using hp
  | cons hd tl ih =>
    simp only [mht_set] at hp
    split at hp
    · rcases List.mem_cons.mp hp with h | h
      · exact Or.inl h
      · exact Or.inr (List.mem_cons_of_mem _ h)
    · rcases List.mem_cons.mp hp with h | h
      · exact Or.inr (by simp [h])
      · rcases ih h with h2 | h2
        · exact Or.inl h2
        · exact Or.inr (List.mem_cons_of_mem _ h2)

theorem mht_get_mem {α β : Type} [DecidableEq α] (t : List (α × β)) (k : α) (v : β)
    (h : mht_get t k = some v) : (k, v) ∈ t := by
  induction t with
  | nil => simp [mht_get] at h
  | cons hd tl ih =>
    obtain ⟨k2, v2⟩ := hd
    simp only [mht_get] at h
    split at h
    · next heq =>
      injection h with h2
      exact List.mem_cons.mpr (Or.inl (by simp [heq, h2]))
    · exact List.mem_cons_of_mem _ (ih h)

theorem mht_get_set_self {α β : Type} [DecidableEq α] (t : List (α × β)) (k : α)
    (v : β) : mht_get (mht_set t k v) k = some v := by
  induction t with
  | nil => simp [mht_set, mht_get]
  | cons hd tl ih =>
    simp only [mht_set]
    split
    · simp [mht_get]
    · next hne => simp [mht_get, hne, ih]

theorem mht_get_set_ne {α β : Type} [DecidableEq α] (t : List (α × β)) (k k2 : α)
    (v : β) (h : k2 ≠ k) : mht_get (mht_set t k v) k2 = mht_get t k2 := by
  induction t with
  | nil => simp [mht_set, mht_get, h]
  | cons hd tl ih =>
    simp only [mht_set]
    split
    · next heq => simp [mht_get, h, heq ▸ h]
    · simp only [mht_get, ih]

theorem init_entries (b : Bool) (s : FTState) : (init b s).filetrack_entries = some [] := by
  unfold init
  split <;> rfl

theorem add_index_row_entries (b : Bool) (s4 : FTState) (fc mc : Option String)
    (st : Handle) :
    (filetrack_add_index_row b s4 fc mc st).filetrack_entries = s4.filetrack_entries := by
  unfold filetrack_add_index_row
  repeat' split
  all_goals rfl

theorem check_entries (s : FTState) (fn : String) (k : Nat) (fl : Option String) (ln : Int) :
    (can_be_removed_check s fn k fl ln).2.filetrack_entries = s.filetrack_entries := by
  unfold can_be_removed_check
  dsimp only
  repeat' split
  all_goals rfl

theorem stateOk_congr (s s2 : FTState)
    (h : s2.filetrack_entries = s.filetrack_entries) (hs : StateOk s) : StateOk s2 := by
  intro p hp
  rw [h] at hp
  exact hs p hp

theorem stateOk_errnoGuard (name : String) (f : FTState → FTState) (s : FTState)
    (hf : ∀ st, StateOk st → StateOk (f st)) (hs : StateOk s) :
    StateOk (errnoGuard name f s) := by
  have h2 : StateOk (f { s with errno := 0 }) := hf _ (stateOk_congr s _ rfl hs)
  refine stateOk_congr _ _ ?_ h2
  unfold errnoGuard
  dsimp only
  split <;> rfl

theorem entry_add_entries_cases (o : AddOracle) (s : FTState) (stream : Handle)
    (ot : FileOpenType) (fn md : Option String) (k : Nat) (fl : Option String) (ln : Int) :
    (filetrack_entry_add o s stream ot fn md k fl ln).filetrack_entries = s.filetrack_entries ∨
    (filetrack_entry_add o s stream ot fn md k fl ln).filetrack_entries = some [] ∨
    (∃ t e, (t = s.filetrack_entries.getD [] ∨ t = []) ∧ EntryOk e ∧
      (filetrack_entry_add o s stream ot fn md k fl ln).filetrack_entries = some (mht_set t stream e)) := by
  by_cases h0 : stream = 0
  · left
    simp [filetrack_entry_add, h0]
  · by_cases hk : k < 1
    · by_cases hN : s.filetrack_entries = none
      · right; left
        simp [filetrack_entry_add, h0, hk, hN, init_entries]
      · left
        simp [filetrack_entry_add, h0, hk, hN]
    · by_cases hse : o.setEntryOk = false
      · by_cases hN : s.filetrack_entries = none
        · right; left
          by_cases hfc : mutils_strndup o.dupFilenameOk o.strndupNullRes fn k = none <;>
          by_cases hmc : mutils_strndup o.dupModeOk o.strndupNullRes md FT_MODE_LEN_MAX = none <;>
          simp [filetrack_entry_add, h0, hk, hN, hse, hfc, hmc, init_entries]
        · left
          by_cases hfc : mutils_strndup o.dupFilenameOk o.strndupNullRes fn k = none <;>
          by_cases hmc : mutils_strndup o.dupModeOk o.strndupNullRes md FT_MODE_LEN_MAX = none <;>
          simp [filetrack_entry_add, h0, hk, hN, hse, hfc, hmc]
      · right; right
        refine ⟨(if s.filetrack_entries = none then (some ([] : List (Handle × FileTrackEntry))) else s.filetrack_entries).getD [],
          { stream := stream,
            filename := mutils_strndup o.dupFilenameOk o.strndupNullRes fn k,
            mode := mutils_strndup o.dupModeOk o.strndupNullRes md FT_MODE_LEN_MAX,
            open_file := fl, last_change_mode_file := none, close_file := none,
            open_line := ln, last_change_mode_line := 0, close_line := 0,
            open_type := ot, closed_type := FileClosedType.FILE_NOT_CLOSED,
            is_closed := false }, ?_, ?_, ?_⟩
        · by_cases hN : s.filetrack_entries = none
          · right; simp [hN]
          · left; simp [hN]
        · constructor <;> simp
        · by_cases hN : s.filetrack_entries = none <;>
          by_cases hfc : mutils_strndup o.dupFilenameOk o.strndupNullRes fn k = none <;>
          by_cases hmc : mutils_strndup o.dupModeOk o.strndupNullRes md FT_MODE_LEN_MAX = none <;>
          simp [filetrack_entry_add, h0, hk, hN, hse, hfc, hmc, add_index_row_entries, init_entries]

theorem stateOk_entry_add (o : AddOracle) (s : FTState) (stream : Handle)
    (ot : FileOpenType) (fn md : Option String) (k : Nat) (fl : Option String)
    (ln : Int) (hs : StateOk s) :
    StateOk (filetrack_entry_add o s stream ot fn md k fl ln) := by
  rcases entry_add_entries_cases o s stream ot fn md k fl ln with h | h | ⟨t, e, ht, he, hEq⟩
  · exact stateOk_congr s _ h hs
  · intro p hp
    rw [h] at hp
    simp at hp
  · intro p hp
    rw [hEq] at hp
    rcases mem_mht_set _ _ _ _ hp with rfl | hp2
    · exact he
    · rcases ht with rfl | rfl
      · exact hs p hp2
      · simp at hp2

theorem stateOk_entry_update (o : UpdateOracle) (s s2 : FTState) (stream : Handle)
    (fn md : Option String) (fl : Option String) (ln : Int)
    (h : filetrack_entry_update o s stream fn md fl ln = some s2) (hs : StateOk s) :
    StateOk s2 := by
  unfold filetrack_entry_update at h
  by_cases hfn : fn = none
  · subst hfn
    by_cases h0 : stream = 0
    · simp only [h0] at h
      simp at h
      exact stateOk_congr s _ (by rw [← h]) hs
    · by_cases hN : s.filetrack_entries = none
      · simp [h0, hN] at h
        rw [← h]
        apply stateOk_entry_add
        intro p hp
        simp [init_entries] at hp
      · cases hget : mht_get (s.filetrack_entries.getD []) stream with
        | none =>
          simp [h0, hN, hget] at h
          rw [← h]
          apply stateOk_entry_add
          exact stateOk_congr s _ rfl hs
        | some entry =>
          simp [h0, hN, hget] at h
          intro p hp
          rw [← h] at hp
          by_cases hmc : mutils_strndup o.dupModeOk o.strndupNullRes md FT_MODE_LEN_MAX = none <;>
          · simp [hmc] at hp
            rcases mem_mht_set _ _ _ _ hp with rfl | hp2
            · have hE := hs _ (mht_get_mem _ _ _ hget)
              exact ⟨hE.1, hE.2⟩
            · exact hs p hp2
  · simp [hfn] at h

theorem stateOk_entry_close (io : Bool) (s : FTState) (stream : Handle)
    (ct : FileClosedType) (fl : Option String) (ln : Int)
    (hct : ct ≠ FileClosedType.FILE_NOT_CLOSED) (hfl : fl ≠ none) (hs : StateOk s) :
    StateOk (filetrack_entry_close io s stream ct fl ln) := by
  unfold filetrack_entry_close
  by_cases h0 : stream = 0
  · simp only [h0, if_pos rfl]
    exact stateOk_congr s _ rfl hs
  · by_cases hN : s.filetrack_entries = none
    · simp only [h0, if_neg h0, hN]
      intro p hp
      simp [init_entries] at hp
    · cases hget : mht_get (s.filetrack_entries.getD []) stream with
      | none =>
        simp only [if_neg h0, if_neg hN, hget]
        exact stateOk_congr s _ rfl hs
      | some entry =>
        simp only [if_neg h0, if_neg hN, hget]
        intro p hp
        simp only at hp
        rcases mem_mht_set _ _ _ _ hp with rfl | hp2
        · constructor
          · simp [hct]
          · simp [hfl]
        · exact hs p hp2

theorem stateOk_fopen (o : FopenOracle) (s : FTState) (fn md : Option String)
    (k : Nat) (fl : Option String) (ln : Int) (hs : StateOk s) :
    StateOk (filetrack_fopen o s fn md k fl ln).state := by
  cases fn with
  | none => exact stateOk_congr s _ rfl hs
  | some f =>
    by_cases hf : f = ""
    · refine stateOk_congr s _ ?_ hs
      simp [filetrack_fopen, hf]
    · cases md with
      | none =>
        refine stateOk_congr s _ ?_ hs
        simp [filetrack_fopen, hf]
      | some m =>
        by_cases hm : m = ""
        · refine stateOk_congr s _ ?_ hs
          simp [filetrack_fopen, hf, hm]
        · by_cases hk : k < 1
          · refine stateOk_congr s _ ?_ hs
            simp [filetrack_fopen, hf, hm, hk]
          · by_cases hdf : o.dupFilenameOk = false
            · refine stateOk_congr s _ ?_ hs
              simp [filetrack_fopen, hf, hm, hk, hdf]
            · by_cases hdm : o.dupModeOk = false
              · refine stateOk_congr s _ ?_ hs
                simp [filetrack_fopen, hf, hm, hk, hdf, hdm]
              · cases hpo : o.platformOpen with
                | none =>
                  refine stateOk_congr s _ ?_ hs
                  simp [filetrack_fopen, hf, hm, hk, hdf, hdm, hpo]
                | some hdl =>
                  have hg : StateOk (errnoGuard "filetrack_fopen" (fun st => filetrack_entry_add o.addO st hdl FileOpenType.FILE_OPEN_FOPEN (some f) (some m) k fl ln) { s with errno := o.platformErrno }) := by
                    apply stateOk_errnoGuard
                    · intro st hst
                      exact stateOk_entry_add _ _ _ _ _ _ _ _ _ hst
                    · exact stateOk_congr s _ rfl hs
                  refine stateOk_congr _ _ ?_ hg
                  simp [filetrack_fopen, hf, hm, hk, hdf, hdm, hpo]

theorem stateOk_tmpfile (o : TmpfileOracle) (s : FTState) (fl : Option String)
    (ln : Int) (hs : StateOk s) :
    StateOk (filetrack_tmpfile o s fl ln).state := by
  cases hpo : o.platformOpen with
  | none =>
    refine stateOk_congr s _ ?_ hs
    simp [filetrack_tmpfile, hpo]
  | some hdl =>
    have hg : StateOk (errnoGuard "filetrack_tmpfile" (fun st => filetrack_entry_add o.addO st hdl FileOpenType.FILE_OPEN_TMPFILE (some "unknown") (some "(tmpfile)") 8 fl ln) { s with errno := o.platformErrno }) := by
      apply stateOk_errnoGuard
      · intro st hst
        exact stateOk_entry_add _ _ _ _ _ _ _ _ _ hst
      · exact stateOk_congr s _ rfl hs
    refine stateOk_congr _ _ ?_ hg
    simp [filetrack_tmpfile, hpo]

theorem stateOk_remove (o : RemoveOracle) (s : FTState) (fn : Option String)
    (k : Nat) (fl : Option String) (ln : Int) (hs : StateOk s) :
    StateOk (filetrack_remove o s fn k fl ln).state := by
  cases fn with
  | none => exact stateOk_congr s _ rfl hs
  | some f =>
    by_cases hf : f = ""
    · refine stateOk_congr s _ ?_ hs
      simp [filetrack_remove, hf]
    · by_cases hk : k < 1
      · refine stateOk_congr s _ ?_ hs
        simp [filetrack_remove, hf, hk]
      · by_cases hN : s.filename_stream_entries = none
        · refine stateOk_congr s _ ?_ hs
          simp [filetrack_remove, hf, hk, hN]
          split <;> rfl
        · by_cases hc : (can_be_removed_check s f k fl ln).1 = false
          · refine stateOk_congr s _ ?_ hs
            simp [filetrack_remove, hf, hk, hN, hc, check_entries]
          · refine stateOk_congr s _ ?_ hs
            simp [filetrack_remove, hf, hk, hN, hc, check_entries]
            split <;> simp [check_entries]

theorem stateOk_fclose (o : FcloseOracle) (std : StdStreams) (s : FTState)
    (stream : Handle) (fl : Option String) (ln : Int) (hfl : fl ≠ none)
    (hs : StateOk s) :
    StateOk (filetrack_fclose o std s stream fl ln).state := by
  by_cases h0 : stream = 0
  · refine stateOk_congr s _ ?_ hs
    simp [filetrack_fclose, h0]
  · by_cases hin : stream = std.stdinH
    · subst hin
      refine stateOk_congr s _ ?_ hs
      simp [filetrack_fclose, h0]
    · by_cases hout : stream = std.stdoutH
      · subst hout
        refine stateOk_congr s _ ?_ hs
        simp [filetrack_fclose, h0, hin]
      · by_cases herr : stream = std.stderrH
        · subst herr
          refine stateOk_congr s _ ?_ hs
          simp [filetrack_fclose, h0, hin, hout]
        · by_cases hN : s.filetrack_entries = none
          · have hIn : StateOk (init o.initIndexOk s) := by
              intro p hp
              simp [init_entries] at hp
            refine stateOk_congr _ _ ?_ hIn
            simp [filetrack_fclose, h0, hin, hout, herr, hN, init_entries]
          · cases hget : mht_get (s.filetrack_entries.getD []) stream with
            | none =>
              refine stateOk_congr s _ ?_ hs
              simp [filetrack_fclose, h0, hin, hout, herr, hN, hget]
            | some entry =>
              by_cases hic : entry.is_closed
              · refine stateOk_congr s _ ?_ hs
                simp [filetrack_fclose, h0, hin, hout, herr, hN, hget, hic]
              · have hg : StateOk (errnoGuard "filetrack_fclose" (fun st => filetrack_entry_close o.initIndexOk st stream FileClosedType.FILE_CLOSED_FCLOSE fl ln) (if o.platformClose ≠ 0 then { ({ s with errno := o.platformErrno } : FTState) with filetrack_errfunc := some "filetrack_fclose" } else { s with errno := o.platformErrno })) := by
                  apply stateOk_errnoGuard
                  · intro st hst
                    exact stateOk_entry_close _ _ _ _ _ _ (by decide) hfl hst
                  · exact stateOk_congr s _ (by split <;> rfl) hs
                refine stateOk_congr _ _ ?_ hg
                simp [filetrack_fclose, h0, hin, hout, herr, hN, hget, hic]

theorem stateOk_freopen (o : FreopenOracle) (std : StdStreams) (s : FTState)
    (fn md : Option String) (stream : Handle) (k : Nat) (fl : Option String)
    (ln : Int) (r : StreamRet) (hfl : fl ≠ none)
    (h : filetrack_freopen o std s fn md stream k fl ln = some r)
    (hs : StateOk s) : StateOk r.state := by
  by_cases hfe : fn = some ""
  · simp [filetrack_freopen, hfe] at h
    subst h
    exact stateOk_congr s _ rfl hs
  · cases md with
    | none =>
      simp [filetrack_freopen, hfe] at h
      subst h
      exact stateOk_congr s _ rfl hs
    | some m =>
      by_cases hm : m = ""
      · simp [filetrack_freopen, hfe, hm] at h
        subst h
        exact stateOk_congr s _ rfl hs
      · by_cases h0 : stream = 0
        · simp [filetrack_freopen, hfe, hm, h0] at h
          subst h
          exact stateOk_congr s _ rfl hs
        · by_cases hk : k < 1
          · simp [filetrack_freopen, hfe, hm, h0, hk] at h
            subst h
            exact stateOk_congr s _ rfl hs
          · cases hft : mutils_strndup o.dupFilenameOk o.strndupNullRes fn k with
            | none =>
              simp [filetrack_freopen, hfe, hm, h0, hk, hft] at h
              subst h
              exact stateOk_congr s _ rfl hs
            | some ft =>
              cases hmt : mutils_strndup o.dupModeOk o.strndupNullRes (some m) FT_MODE_LEN_MAX with
              | none =>
                simp [filetrack_freopen, hfe, hm, h0, hk, hft, hmt] at h
                subst h
                exact stateOk_congr s _ rfl hs
              | some mt =>
                cases hpo : o.platformReopen with
                | none =>
                  simp [filetrack_freopen, hfe, hm, h0, hk, hft, hmt, hpo] at h
                  subst h
                  exact stateOk_entry_close _ _ _ _ _ _ (by decide) hfl (stateOk_congr s _ rfl hs)
                | some ns =>
                  by_cases hstd : stream = std.stdinH ∨ stream = std.stdoutH ∨ stream = std.stderrH
                  · simp [filetrack_freopen, hfe, hm, h0, hk, hft, hmt, hpo, hstd] at h
                    subst h
                    exact stateOk_congr s _ rfl hs
                  · cases fn with
                    | none =>
                      simp only [filetrack_freopen, hfe, hm, h0, hk, hft, hmt, hpo, hstd] at h
                      cases hup : filetrack_entry_update o.updO { s with errno := 0 } ns none (some m) fl ln with
                      | none =>
                        rw [hup] at h
                        simp at h
                      | some s3 =>
                        rw [hup] at h
                        simp at h
                        subst h
                        have hs3 : StateOk s3 :=
                          stateOk_entry_update o.updO { s with errno := 0 } s3 ns none (some m) fl ln hup (stateOk_congr s _ rfl hs)
                        refine stateOk_congr _ _ ?_ hs3
                        split <;> rfl
                    | some f2 =>
                      simp only [filetrack_freopen, hfe, hm, h0, hk, hft, hmt, hpo, hstd, Option.some.injEq, if_true, if_false, ite_true, ite_false] at h
                      subst h
                      have hg1 : StateOk (errnoGuard "filetrack_freopen" (fun st => filetrack_entry_close o.closeInitIndexOk st stream FileClosedType.FILE_CLOSED_FREOPEN fl ln) { s with errno := o.platformErrno }) := by
                        apply stateOk_errnoGuard
                        · intro st hst
                          exact stateOk_entry_close _ _ _ _ _ _ (by decide) hfl hst
                        · exact stateOk_congr s _ rfl hs
                      have hg2 : StateOk (errnoGuard "filetrack_freopen" (fun st => filetrack_entry_add o.addO st ns FileOpenType.FILE_OPEN_FREOPEN (some f2) (some m) k fl ln) (errnoGuard "filetrack_freopen" (fun st => filetrack_entry_close o.closeInitIndexOk st stream FileClosedType.FILE_CLOSED_FREOPEN fl ln) { s with errno := o.platformErrno })) := by
                        apply stateOk_errnoGuard
                        · intro st hst
                          exact stateOk_entry_add _ _ _ _ _ _ _ _ _ hst
                        · exact hg1
                      exact stateOk_congr _ _ rfl hg2

theorem stateOk_step (s s2 : FTState) (h : FTStep s s2) (hs : StateOk s) : StateOk s2 := by
  cases h with
  | add o stream ot fn md k fl ln => exact stateOk_entry_add o s stream ot fn md k fl ln hs
  | update s2 o stream fn md fl ln hu => exact stateOk_entry_update o s s2 stream fn md fl ln hu hs
  | close io stream ct fl ln hct hfl => exact stateOk_entry_close io s stream ct fl ln hct hfl hs
  | fopen o fn md k fl ln => exact stateOk_fopen o s fn md k fl ln hs
  | tmpfile o fl ln => exact stateOk_tmpfile o s fl ln hs
  | freopen r o std fn md stream k fl ln hfl hh => exact stateOk_freopen o std s fn md stream k fl ln r hfl hh hs
  | fclose o std stream fl ln hfl => exact stateOk_fclose o std s stream fl ln hfl hs
  | remove o fn k fl ln => exact stateOk_remove o s fn k fl ln hs

theorem stateOk_reachable (s : FTState) (h : Reachable s) : StateOk s := by
  unfold Reachable at h
  induction h with
  | refl =>
    intro p hp
    simp [ftInitialState] at hp
  | tail hab hbc ih => exact stateOk_step _ _ hbc ih

theorem add_index_row_errno (b : Bool) (s4 : FTState) (fc mc : Option String)
    (st : Handle) : (filetrack_add_index_row b s4 fc mc st).errno = s4.errno := by
  unfold filetrack_add_index_row
  repeat' split
  all_goals rfl

theorem add_index_row_errfunc (s4 : FTState) (fc mc : String) (st : Handle)
    (idx : List (String × FilenameStreamEntry))
    (hidx : s4.filename_stream_entries = some idx) :
    (filetrack_add_index_row true s4 (some fc) (some mc) st).filetrack_errfunc =
      s4.filetrack_errfunc := by
  unfold filetrack_add_index_row
  by_cases hmc : (some mc : Option String) = some "(tmpfile)" <;> simp [hmc, hidx]

theorem errnoGuard_entries (name : String) (f : FTState → FTState) (s : FTState) :
    (errnoGuard name f s).filetrack_entries = (f { s with errno := 0 }).filetrack_entries := by
  unfold errnoGuard
  dsimp only
  split <;> rfl

theorem errnoGuard_eq_of_errno_zero (name : String) (f : FTState → FTState) (s : FTState)
    (h : (f { s with errno := 0 }).errno = 0) :
    errnoGuard name f s = { f { s with errno := 0 } with errno := s.errno } := by
  unfold errnoGuard
  simp [h]

theorem entry_add_success_eq (o : AddOracle) (s : FTState) (stream : Handle)
    (ot : FileOpenType) (fnStr mdStr : String) (k : Nat) (fl : Option String)
    (ln : Int) (t : List (Handle × FileTrackEntry))
    (h0 : stream ≠ 0) (ht : s.filetrack_entries = some t) (hk : 1 ≤ k)
    (hdf : o.dupFilenameOk = true) (hdm : o.dupModeOk = true)
    (hse : o.setEntryOk = true) :
    filetrack_entry_add o s stream ot (some fnStr) (some mdStr) k fl ln =
      filetrack_add_index_row o.setIndexOk
        { s with filetrack_entries := some (mht_set t stream
            { stream := stream, filename := some (strnTake fnStr k),
              mode := some (strnTake mdStr FT_MODE_LEN_MAX),
              open_file := fl, last_change_mode_file := none, close_file := none,
              open_line := ln, last_change_mode_line := 0, close_line := 0,
              open_type := ot, closed_type := FileClosedType.FILE_NOT_CLOSED,
              is_closed := false }) }
        (some (strnTake fnStr k)) (some (strnTake mdStr FT_MODE_LEN_MAX)) stream := by
  simp [filetrack_entry_add, mutils_strndup, h0, ht, hdf, hdm, hse, Nat.not_lt.mpr hk]

theorem entry_close_found (io : Bool) (s : FTState) (stream : Handle)
    (ct : FileClosedType) (fl : Option String) (ln : Int)
    (t : List (Handle × FileTrackEntry)) (e : FileTrackEntry)
    (h0 : stream ≠ 0) (ht : s.filetrack_entries = some t)
    (hget : mht_get t stream = some e) :
    filetrack_entry_close io s stream ct fl ln =
      { s with filetrack_entries := some (mht_set t stream
          { e with is_closed := true, closed_type := ct, close_file := fl, close_line := ln }) } := by
  simp [filetrack_entry_close, h0, ht, hget]

theorem entry_close_missing (io : Bool) (s : FTState) (stream : Handle)
    (ct : FileClosedType) (fl : Option String) (ln : Int)
    (t : List (Handle × FileTrackEntry))
    (h0 : stream ≠ 0) (ht : s.filetrack_entries = some t)
    (hget : mht_get t stream = none) :
    filetrack_entry_close io s stream ct fl ln =
      { s with filetrack_errfunc := some "filetrack_entry_close" } := by
  simp [filetrack_entry_close, h0, ht, hget]

theorem entry_update_found (o : UpdateOracle) (s : FTState) (stream : Handle)
    (m : String) (fl : Option String) (ln : Int)
    (t : List (Handle × FileTrackEntry)) (e : FileTrackEntry)
    (h0 : stream ≠ 0) (ht : s.filetrack_entries = some t)
    (hget : mht_get t stream = some e) (hdm : o.dupModeOk = true) :
    filetrack_entry_update o s stream none (some m) fl ln =
      some { s with filetrack_entries := some (mht_set t stream
          { e with mode := some (strnTake m FT_MODE_LEN_MAX),
                   last_change_mode_file := fl, last_change_mode_line := ln }) } := by
  simp [filetrack_entry_update, mutils_strndup, h0, ht, hget, hdm]

theorem entry_update_missing (o : UpdateOracle) (s : FTState) (stream : Handle)
    (md : Option String) (fl : Option String) (ln : Int)
    (t : List (Handle × FileTrackEntry))
    (h0 : stream ≠ 0) (ht : s.filetrack_entries = some t)
    (hget : mht_get t stream = none) :
    filetrack_entry_update o s stream none md fl ln =
      some (filetrack_entry_add o.addO { s with filetrack_errfunc := some "filetrack_entry_update" }
        stream FileOpenType.FILE_OPEN_UNKNOWN (some "unknown") md 8 fl ln) := by
  simp [filetrack_entry_update, h0, ht, hget]

/-- C2: for a handle whose tracked entry already has is_closed = true, a second
close through the fclose wrapper fails with EOF, records errno EINVAL and the
failing operation name, does not invoke the real platform fclose again, and
leaves the registry state unchanged, hence the close_site and closed_kind of
the entry unchanged. -/
theorem C2_double_close_rejected (o : FcloseOracle) (std : StdStreams) (s : FTState)
    (stream : Handle) (fl : Option String) (ln : Int)
    (t : List (Handle × FileTrackEntry)) (e : FileTrackEntry)
    (h0 : stream ≠ 0) (hin : stream ≠ std.stdinH) (hout : stream ≠ std.stdoutH)
    (herr : stream ≠ std.stderrH)
    (ht : s.filetrack_entries = some t) (hget : mht_get t stream = some e)
    (hic : e.is_closed = true) :
    (filetrack_fclose o std s stream fl ln).ret = EOF ∧
    (filetrack_fclose o std s stream fl ln).platformInvoked = false ∧
    (filetrack_fclose o std s stream fl ln).state =
      { s with errno := EINVAL, filetrack_errfunc := some "filetrack_fclose" } := by
  refine ⟨?_, ?_, ?_⟩ <;>
    simp [filetrack_fclose, h0, hin, hout, herr, ht, hget, hic]

/-- Witness for C2 at the concrete already-closed handle 5. -/
theorem C2_witness :
    (filetrack_fclose { initIndexOk := true, platformClose := 0, platformErrno := 0 } std0 sClosed5 5 (some "m.c") 31).ret = EOF ∧
    (filetrack_fclose { initIndexOk := true, platformClose := 0, platformErrno := 0 } std0 sClosed5 5 (some "m.c") 31).platformInvoked = false ∧
    (filetrack_fclose { initIndexOk := true, platformClose := 0, platformErrno := 0 } std0 sClosed5 5 (some "m.c") 31).state =
      { sClosed5 with errno := EINVAL, filetrack_errfunc := some "filetrack_fclose" } :=
  C2_double_close_rejected { initIndexOk := true, platformClose := 0, platformErrno := 0 }
    std0 sClosed5 5 (some "m.c") 31 [(5, entryClosed5)] entryClosed5
    (by decide) (by decide) (by decide) (by decide) rfl (by decide) (by decide)

/-- C10: calling the low-level close transition directly on an already-closed
entry records no error (errfunc and errno unchanged) and unconditionally
overwrites closed_type and the close site with the values of the new call; the
already-closed misuse rejection lives only in the fclose wrapper, which
refuses without invoking the platform close. -/
theorem C10_low_level_reclose (io : Bool) (s : FTState) (stream : Handle)
    (ct : FileClosedType) (fl : Option String) (ln : Int)
    (o : FcloseOracle) (std : StdStreams)
    (t : List (Handle × FileTrackEntry)) (e : FileTrackEntry)
    (h0 : stream ≠ 0) (hin : stream ≠ std.stdinH) (hout : stream ≠ std.stdoutH)
    (herr : stream ≠ std.stderrH)
    (ht : s.filetrack_entries = some t) (hget : mht_get t stream = some e)
    (hic : e.is_closed = true) :
    filetrack_entry_close io s stream ct fl ln =
      { s with filetrack_entries := some (mht_set t stream
          { e with is_closed := true, closed_type := ct, close_file := fl, close_line := ln }) } ∧
    (filetrack_entry_close io s stream ct fl ln).filetrack_errfunc = s.filetrack_errfunc ∧
    (filetrack_entry_close io s stream ct fl ln).errno = s.errno ∧
    mht_get ((filetrack_entry_close io s stream ct fl ln).filetrack_entries.getD []) stream =
      some { e with is_closed := true, closed_type := ct, close_file := fl, close_line := ln } ∧
    (filetrack_fclose o std s stream fl ln).platformInvoked = false := by
  have heq := entry_close_found io s stream ct fl ln t e h0 ht hget
  refine ⟨heq, by rw [heq], by rw [heq], ?_, ?_⟩
  · rw [heq]
    simp [mht_get_set_self]
  · simp [filetrack_fclose, h0, hin, hout, herr, ht, hget, hic]

/-- Witness for C10: a direct low-level re-close of the already-closed handle
5 with kind FREOPEN silently overwrites the close marking. -/
theorem C10_witness :
    filetrack_entry_close true sClosed5 5 FileClosedType.FILE_CLOSED_FREOPEN (some "n.c") 44 =
      { sClosed5 with filetrack_entries := some (mht_set [(5, entryClosed5)] 5
          { entryClosed5 with is_closed := true, closed_type := FileClosedType.FILE_CLOSED_FREOPEN, close_file := some "n.c", close_line := 44 }) } ∧
    (filetrack_entry_close true sClosed5 5 FileClosedType.FILE_CLOSED_FREOPEN (some "n.c") 44).filetrack_errfunc = sClosed5.filetrack_errfunc ∧
    (filetrack_entry_close true sClosed5 5 FileClosedType.FILE_CLOSED_FREOPEN (some "n.c") 44).errno = sClosed5.errno ∧
    mht_get ((filetrack_entry_close true sClosed5 5 FileClosedType.FILE_CLOSED_FREOPEN (some "n.c") 44).filetrack_entries.getD []) 5 =
      some { entryClosed5 with is_closed := true, closed_type := FileClosedType.FILE_CLOSED_FREOPEN, close_file := some "n.c", close_line := 44 } ∧
    (filetrack_fclose { initIndexOk := true, platformClose := 0, platformErrno := 0 } std0 sClosed5 5 (some "n.c") 44).platformInvoked = false :=
  C10_low_level_reclose true sClosed5 5 FileClosedType.FILE_CLOSED_FREOPEN (some "n.c") 44
    { initIndexOk := true, platformClose := 0, platformErrno := 0 } std0
    [(5, entryClosed5)] entryClosed5
    (by decide) (by decide) (by decide) (by decide) rfl (by decide) (by decide)

/-- C4 counterexample: on a registry that does not track the handle 7, the
low-level close records the NOT_FOUND error but synthesizes no entry at all:
the registry remains empty and the handle is not tracked going forward, so the
half of the claim about the close transition is false. -/
theorem C4_counterexample :
    filetrack_entry_close true sReady 7 FileClosedType.FILE_CLOSED_FCLOSE (some "t.c") 3 =
      { sReady with filetrack_errfunc := some "filetrack_entry_close" } ∧
    mht_get ((filetrack_entry_close true sReady 7 FileClosedType.FILE_CLOSED_FCLOSE (some "t.c") 3).filetrack_entries.getD []) 7 = none := by
  decide

/-- C4 amended: on a non-null untracked handle, the update transition records
the NOT_FOUND error and synthesizes a best-effort entry with open_kind UNKNOWN
(so the registry tracks the handle going forward), while the close transition
only records the error and leaves the registry unchanged, synthesizing
nothing. -/
theorem C4_amended (o : UpdateOracle) (io : Bool) (s : FTState) (stream : Handle)
    (m : String) (fl : Option String) (ln : Int) (ct : FileClosedType)
    (t : List (Handle × FileTrackEntry))
    (h0 : stream ≠ 0) (ht : s.filetrack_entries = some t)
    (hget : mht_get t stream = none)
    (hdf : o.addO.dupFilenameOk = true) (hdm : o.addO.dupModeOk = true)
    (hse : o.addO.setEntryOk = true) :
    (∃ s2, filetrack_entry_update o s stream none (some m) fl ln = some s2 ∧
      s2.filetrack_errfunc ≠ none ∧
      mht_get (s2.filetrack_entries.getD []) stream = some
        { stream := stream, filename := some (strnTake "unknown" 8),
          mode := some (strnTake m FT_MODE_LEN_MAX),
          open_file := fl, last_change_mode_file := none, close_file := none,
          open_line := ln, last_change_mode_line := 0, close_line := 0,
          open_type := FileOpenType.FILE_OPEN_UNKNOWN,
          closed_type := FileClosedType.FILE_NOT_CLOSED, is_closed := false }) ∧
    filetrack_entry_close io s stream ct fl ln =
      { s with filetrack_errfunc := some "filetrack_entry_close" } := by
  constructor
  · have hupd := entry_update_missing o s stream (some m) fl ln t h0 ht hget
    have hadd := entry_add_success_eq o.addO { s with filetrack_errfunc := some "filetrack_entry_update" }
      stream FileOpenType.FILE_OPEN_UNKNOWN "unknown" m 8 fl ln t h0 (by simp [ht]) (by omega) hdf hdm hse
    refine ⟨_, hupd, ?_, ?_⟩
    · rw [hadd]
      by_cases hsent : (some (strnTake m FT_MODE_LEN_MAX) : Option String) = some "(tmpfile)" <;>
      · unfold filetrack_add_index_row
        simp [hsent]
        repeat' split
        all_goals simp
    · rw [hadd, ← add_index_row_entries o.addO.setIndexOk _ (some (strnTake "unknown" 8)) (some (strnTake m FT_MODE_LEN_MAX)) stream]
      simp [add_index_row_entries, mht_get_set_self]
  · exact entry_close_missing io s stream ct fl ln t h0 ht hget

/-- Witness for C4 amended at the untracked handle 7 on an initialized empty
registry. -/
theorem C4_witness :
    (∃ s2, filetrack_entry_update { initIndexOk := true, dupModeOk := true, strndupNullRes := none, addO := addOracleOk } sReady 7 none (some "w") (some "t.c") 3 = some s2 ∧
      s2.filetrack_errfunc ≠ none ∧
      mht_get (s2.filetrack_entries.getD []) 7 = some
        { stream := 7, filename := some (strnTake "unknown" 8),
          mode := some (strnTake "w" FT_MODE_LEN_MAX),
          open_file := some "t.c", last_change_mode_file := none, close_file := none,
          open_line := 3, last_change_mode_line := 0, close_line := 0,
          open_type := FileOpenType.FILE_OPEN_UNKNOWN,
          closed_type := FileClosedType.FILE_NOT_CLOSED, is_closed := false }) ∧
    filetrack_entry_close true sReady 7 FileClosedType.FILE_CLOSED_FCLOSE (some "t.c") 3 =
      { sReady with filetrack_errfunc := some "filetrack_entry_close" } :=
  C4_amended { initIndexOk := true, dupModeOk := true, strndupNullRes := none, addO := addOracleOk }
    true sReady 7 "w" (some "t.c") 3 FileClosedType.FILE_CLOSED_FCLOSE []
    (by decide) rfl (by decide) (by decide) (by decide) (by decide)

/-- C5 counterexample: on the uninitialized process-start state, an add with
name_len_limit 0 and a non-null handle lazily initializes both stores before
the limit check fires, so the registry state is not exactly as it was before
the call: the initialized status of both stores changed. -/
theorem C5_counterexample :
    (filetrack_entry_add addOracleOk ftInitialState 5 FileOpenType.FILE_OPEN_FOPEN (some "a") (some "r") 0 (some "f.c") 1).filetrack_entries ≠ ftInitialState.filetrack_entries ∧
    (filetrack_entry_add addOracleOk ftInitialState 5 FileOpenType.FILE_OPEN_FOPEN (some "a") (some "r") 0 (some "f.c") 1).filename_stream_entries ≠ ftInitialState.filename_stream_entries := by
  decide

/-- C5 amended: add with a null handle records EINVAL and the failing
operation name and returns with all other state exactly unchanged; add with
name_len_limit < 1 records the same error and creates no entry and changes no
store contents, but first performs the lazy initialization when the registry
was uninitialized, because the limit check runs after the lazy init. -/
theorem C5_amended (o : AddOracle) (s : FTState) (stream : Handle) (ot : FileOpenType)
    (fn md : Option String) (k : Nat) (fl : Option String) (ln : Int) :
    (stream = 0 → filetrack_entry_add o s stream ot fn md k fl ln =
      { s with errno := EINVAL, filetrack_errfunc := some "filetrack_entry_add" }) ∧
    (stream ≠ 0 → k = 0 → filetrack_entry_add o s stream ot fn md k fl ln =
      { (if s.filetrack_entries = none then init o.initIndexOk s else s) with
        errno := EINVAL, filetrack_errfunc := some "filetrack_entry_add" }) := by
  constructor
  · intro h0
    simp [filetrack_entry_add, h0]
  · intro h0 hk
    subst hk
    simp [filetrack_entry_add, h0]

/-- Witness for C5 amended: both precondition violations at concrete inputs. -/
theorem C5_witness :
    (0 = 0 → filetrack_entry_add addOracleOk sReady 0 FileOpenType.FILE_OPEN_FOPEN (some "a") (some "r") 9 (some "f.c") 1 =
      { sReady with errno := EINVAL, filetrack_errfunc := some "filetrack_entry_add" }) ∧
    ((5 : Handle) ≠ 0 → 0 = 0 → filetrack_entry_add addOracleOk sReady 5 FileOpenType.FILE_OPEN_FOPEN (some "a") (some "r") 0 (some "f.c") 1 =
      { (if sReady.filetrack_entries = none then init addOracleOk.initIndexOk sReady else sReady) with
        errno := EINVAL, filetrack_errfunc := some "filetrack_entry_add" }) :=
  ⟨(C5_amended addOracleOk sReady 0 FileOpenType.FILE_OPEN_FOPEN (some "a") (some "r") 9 (some "f.c") 1).1,
   (C5_amended addOracleOk sReady 5 FileOpenType.FILE_OPEN_FOPEN (some "a") (some "r") 0 (some "f.c") 1).2⟩

/-- C6: on a valid filename and mode but name_len_limit 0, the open wrapper
records errno EINVAL and the failing operation name, performs no platform open
and creates no entry, exactly as the claim states, but the returned FILE* is
indeterminate (a bare return with no value, filetrack.c line 356) rather than
the null handle the claim states; the sibling null or empty argument paths do
return null. -/
theorem C6_badlimit_return_indeterminate :
    (filetrack_fopen fopenOracle5 sReady (some "a.txt") (some "r") 0 (some "m.c") 3).ret = CFile.indeterminate ∧
    (filetrack_fopen fopenOracle5 sReady (some "a.txt") (some "r") 0 (some "m.c") 3).ret ≠ CFile.null ∧
    (filetrack_fopen fopenOracle5 sReady (some "a.txt") (some "r") 0 (some "m.c") 3).platformInvoked = false ∧
    (filetrack_fopen fopenOracle5 sReady (some "a.txt") (some "r") 0 (some "m.c") 3).state =
      { sReady with errno := EINVAL, filetrack_errfunc := some "filetrack_fopen" } ∧
    (filetrack_fopen fopenOracle5 sReady none (some "r") 5 (some "m.c") 3).ret = CFile.null ∧
    (filetrack_fopen fopenOracle5 sReady (some "") (some "r") 5 (some "m.c") 3).ret = CFile.null ∧
    (filetrack_fopen fopenOracle5 sReady (some "a.txt") none 5 (some "m.c") 3).ret = CFile.null ∧
    (filetrack_fopen fopenOracle5 sReady (some "a.txt") (some "") 5 (some "m.c") 3).ret = CFile.null := by
  decide

theorem entry_add_success_entries (o : AddOracle) (s : FTState) (stream : Handle)
    (ot : FileOpenType) (fnStr mdStr : String) (k : Nat) (fl : Option String)
    (ln : Int) (t : List (Handle × FileTrackEntry))
    (h0 : stream ≠ 0) (ht : s.filetrack_entries = some t) (hk : 1 ≤ k)
    (hdf : o.dupFilenameOk = true) (hdm : o.dupModeOk = true)
    (hse : o.setEntryOk = true) :
    (filetrack_entry_add o s stream ot (some fnStr) (some mdStr) k fl ln).filetrack_entries =
      some (mht_set t stream
        { stream := stream, filename := some (strnTake fnStr k),
          mode := some (strnTake mdStr FT_MODE_LEN_MAX),
          open_file := fl, last_change_mode_file := none, close_file := none,
          open_line := ln, last_change_mode_line := 0, close_line := 0,
          open_type := ot, closed_type := FileClosedType.FILE_NOT_CLOSED,
          is_closed := false }) := by
  rw [entry_add_success_eq o s stream ot fnStr mdStr k fl ln t h0 ht hk hdf hdm hse]
  simp [add_index_row_entries]

/-- C1: with the filename index initialized, a remove request on a valid name
is allowed (the platform remove runs) when the index has no row for the name;
when the index maps the name to a handle whose tracked entry is still open,
the request is denied with return value 1, errno EINVAL and the failing
operation name recorded, and the platform remove does not run; when that entry
is already closed, the request is allowed. -/
theorem C1_removal_guard (o : RemoveOracle) (s : FTState) (f : String) (k : Nat)
    (fl : Option String) (ln : Int) (idx : List (String × FilenameStreamEntry))
    (hf : f ≠ "") (hk : 1 ≤ k) (hidx : s.filename_stream_entries = some idx) :
    (mht_get idx (strnTake f (mutils_strnlen (some f) k)) = none →
      (filetrack_remove o s (some f) k fl ln).platformInvoked = true ∧
      (filetrack_remove o s (some f) k fl ln).ret = o.platformRemove) ∧
    (∀ fse e, mht_get idx (strnTake f (mutils_strnlen (some f) k)) = some fse →
      mht_get (s.filetrack_entries.getD []) fse.stream = some e →
      ((e.is_closed = false →
        (filetrack_remove o s (some f) k fl ln).ret = 1 ∧
        (filetrack_remove o s (some f) k fl ln).platformInvoked = false ∧
        (filetrack_remove o s (some f) k fl ln).state =
          { s with errno := EINVAL, filetrack_errfunc := some "filetrack_remove" }) ∧
      (e.is_closed = true →
        (filetrack_remove o s (some f) k fl ln).platformInvoked = true ∧
        (filetrack_remove o s (some f) k fl ln).ret = o.platformRemove))) := by
  have hdata : f.data ≠ [] := by
    intro hh
    apply hf
    cases f with
    | mk d =>
      simp only at hh
      rw [hh]
  have hpos : 0 < f.data.length := List.length_pos.mpr hdata
  have hlen : mutils_strnlen (some f) k ≠ 0 := by
    simp only [mutils_strnlen]
    omega
  constructor
  · intro hnone
    constructor <;>
      simp [filetrack_remove, can_be_removed_check, hf, Nat.not_lt.mpr hk, hidx, hlen, hnone]
  · intro fse e hsome hentry
    constructor
    · intro hopen
      refine ⟨?_, ?_, ?_⟩ <;>
        simp [filetrack_remove, can_be_removed_check, hf, Nat.not_lt.mpr hk, hidx, hlen, hsome, hentry, hopen]
    · intro hclosed
      constructor <;>
        simp [filetrack_remove, can_be_removed_check, hf, Nat.not_lt.mpr hk, hidx, hlen, hsome, hentry, hclosed]

/-- Witness for C1: removing a.txt while the handle 5 is open is denied, and
after the entry is closed the same request is allowed. -/
theorem C1_witness :
    ((entryOpen5.is_closed = false →
      (filetrack_remove { platformRemove := 0, platformErrno := 0 } sOpen5 (some "a.txt") 100 (some "m.c") 9).ret = 1 ∧
      (filetrack_remove { platformRemove := 0, platformErrno := 0 } sOpen5 (some "a.txt") 100 (some "m.c") 9).platformInvoked = false ∧
      (filetrack_remove { platformRemove := 0, platformErrno := 0 } sOpen5 (some "a.txt") 100 (some "m.c") 9).state =
        { sOpen5 with errno := EINVAL, filetrack_errfunc := some "filetrack_remove" }) ∧
    (entryOpen5.is_closed = true →
      (filetrack_remove { platformRemove := 0, platformErrno := 0 } sOpen5 (some "a.txt") 100 (some "m.c") 9).platformInvoked = true ∧
      (filetrack_remove { platformRemove := 0, platformErrno := 0 } sOpen5 (some "a.txt") 100 (some "m.c") 9).ret = 0)) ∧
    (entryClosed5.is_closed = true →
      (filetrack_remove { platformRemove := 0, platformErrno := 0 } sClosed5 (some "a.txt") 100 (some "m.c") 9).platformInvoked = true ∧
      (filetrack_remove { platformRemove := 0, platformErrno := 0 } sClosed5 (some "a.txt") 100 (some "m.c") 9).ret = 0) :=
  ⟨(C1_removal_guard { platformRemove := 0, platformErrno := 0 } sOpen5 "a.txt" 100 (some "m.c") 9
      [("a.txt", { filename := "a.txt", stream := 5 })]
      (by decide) (by decide) rfl).2
      { filename := "a.txt", stream := 5 } entryOpen5 (by decide) (by decide),
   fun hcl =>
    ((C1_removal_guard { platformRemove := 0, platformErrno := 0 } sClosed5 "a.txt" 100 (some "m.c") 9
      [("a.txt", { filename := "a.txt", stream := 5 })]
      (by decide) (by decide) rfl).2
      { filename := "a.txt", stream := 5 } entryClosed5 (by decide) (by decide)).2 hcl⟩

/-- C3: for a reopen with a non-absent filename on a tracked non-standard
handle, a platform failure still marks the old entry closed with kind FREOPEN
and returns null; a platform success closes the old entry with kind FREOPEN
(the close transition runs first, as the intermediate state shows) and then
creates a fresh entry with open_kind FREOPEN and is_closed false for the
resulting handle, overwriting the closed marking when the resulting handle
value equals the old one. -/
theorem C3_reopen_with_filename (o : FreopenOracle) (std : StdStreams) (s : FTState)
    (f m : String) (stream : Handle) (k : Nat) (fl : Option String) (ln : Int)
    (t : List (Handle × FileTrackEntry)) (e : FileTrackEntry)
    (hf : f ≠ "") (hm : m ≠ "") (h0 : stream ≠ 0) (hk : 1 ≤ k)
    (hdf : o.dupFilenameOk = true) (hdm : o.dupModeOk = true)
    (hin : stream ≠ std.stdinH) (hout : stream ≠ std.stdoutH) (herr : stream ≠ std.stderrH)
    (ht : s.filetrack_entries = some t) (hget : mht_get t stream = some e) :
    (o.platformReopen = none →
      filetrack_freopen o std s (some f) (some m) stream k fl ln =
        some { ret := CFile.null, platformInvoked := true, state := { s with errno := o.platformErrno, filetrack_errfunc := some "filetrack_freopen", filetrack_entries := some (mht_set t stream { e with is_closed := true, closed_type := FileClosedType.FILE_CLOSED_FREOPEN, close_file := fl, close_line := ln }) } }) ∧
    (∀ ns, o.platformReopen = some ns → ns ≠ 0 →
      o.addO.dupFilenameOk = true → o.addO.dupModeOk = true → o.addO.setEntryOk = true →
      ∃ s7, filetrack_freopen o std s (some f) (some m) stream k fl ln =
          some { ret := CFile.handle ns, platformInvoked := true, state := s7 } ∧
        mht_get ((filetrack_entry_close o.closeInitIndexOk { s with errno := 0 } stream
            FileClosedType.FILE_CLOSED_FREOPEN fl ln).filetrack_entries.getD []) stream =
          some { e with is_closed := true, closed_type := FileClosedType.FILE_CLOSED_FREOPEN, close_file := fl, close_line := ln } ∧
        mht_get (s7.filetrack_entries.getD []) ns =
          some { stream := ns, filename := some (strnTake f k), mode := some (strnTake m FT_MODE_LEN_MAX), open_file := fl, last_change_mode_file := none, close_file := none, open_line := ln, last_change_mode_line := 0, close_line := 0, open_type := FileOpenType.FILE_OPEN_FREOPEN, closed_type := FileClosedType.FILE_NOT_CLOSED, is_closed := false } ∧
        (ns ≠ stream → mht_get (s7.filetrack_entries.getD []) stream =
          some { e with is_closed := true, closed_type := FileClosedType.FILE_CLOSED_FREOPEN, close_file := fl, close_line := ln })) := by
  have hstd : ¬(stream = std.stdinH ∨ stream = std.stdoutH ∨ stream = std.stderrH) := by
    simp [hin, hout, herr]
  constructor
  · intro hpo
    have hcl := entry_close_found o.closeInitIndexOk
      { s with errno := o.platformErrno, filetrack_errfunc := some "filetrack_freopen" }
      stream FileClosedType.FILE_CLOSED_FREOPEN fl ln t e h0 (by simp [ht]) hget
    simp only [filetrack_freopen, mutils_strndup, hf, hm, h0, hdf, hdm, hpo,
      Nat.not_lt.mpr hk, if_true, if_false, ite_true, ite_false, Option.some.injEq]
    rw [hcl]
  · intro ns hpo hns0 had1 had2 had3
    have hcl := entry_close_found o.closeInitIndexOk
      { ({ s with errno := o.platformErrno } : FTState) with errno := 0 }
      stream FileClosedType.FILE_CLOSED_FREOPEN fl ln t e h0 (by simp [ht]) hget
    have hcl0 := entry_close_found o.closeInitIndexOk { s with errno := 0 }
      stream FileClosedType.FILE_CLOSED_FREOPEN fl ln t e h0 (by simp [ht]) hget
    have hpre_ent : ({ (errnoGuard "filetrack_freopen" (fun st => filetrack_entry_close o.closeInitIndexOk st stream FileClosedType.FILE_CLOSED_FREOPEN fl ln) { s with errno := o.platformErrno }) with errno := 0 } : FTState).filetrack_entries =
        some (mht_set t stream { e with is_closed := true, closed_type := FileClosedType.FILE_CLOSED_FREOPEN, close_file := fl, close_line := ln }) := by
      rw [show ({ (errnoGuard "filetrack_freopen" (fun st => filetrack_entry_close o.closeInitIndexOk st stream FileClosedType.FILE_CLOSED_FREOPEN fl ln) { s with errno := o.platformErrno }) with errno := 0 } : FTState).filetrack_entries =
        (errnoGuard "filetrack_freopen" (fun st => filetrack_entry_close o.closeInitIndexOk st stream FileClosedType.FILE_CLOSED_FREOPEN fl ln) { s with errno := o.platformErrno }).filetrack_entries from rfl]
      rw [errnoGuard_entries]
      rw [hcl]
    have hadd_ent := entry_add_success_entries o.addO
      ({ (errnoGuard "filetrack_freopen" (fun st => filetrack_entry_close o.closeInitIndexOk st stream FileClosedType.FILE_CLOSED_FREOPEN fl ln) { s with errno := o.platformErrno }) with errno := 0 } : FTState)
      ns FileOpenType.FILE_OPEN_FREOPEN f m k fl ln
      (mht_set t stream { e with is_closed := true, closed_type := FileClosedType.FILE_CLOSED_FREOPEN, close_file := fl, close_line := ln })
      hns0 hpre_ent hk had1 had2 had3
    have hout_ent : (errnoGuard "filetrack_freopen" (fun st => filetrack_entry_add o.addO st ns FileOpenType.FILE_OPEN_FREOPEN (some f) (some m) k fl ln) (errnoGuard "filetrack_freopen" (fun st => filetrack_entry_close o.closeInitIndexOk st stream FileClosedType.FILE_CLOSED_FREOPEN fl ln) { s with errno := o.platformErrno })).filetrack_entries =
        some (mht_set (mht_set t stream { e with is_closed := true, closed_type := FileClosedType.FILE_CLOSED_FREOPEN, close_file := fl, close_line := ln }) ns
          { stream := ns, filename := some (strnTake f k), mode := some (strnTake m FT_MODE_LEN_MAX), open_file := fl, last_change_mode_file := none, close_file := none, open_line := ln, last_change_mode_line := 0, close_line := 0, open_type := FileOpenType.FILE_OPEN_FREOPEN, closed_type := FileClosedType.FILE_NOT_CLOSED, is_closed := false }) := by
      rw [errnoGuard_entries]
      exact hadd_ent
    simp only [filetrack_freopen, mutils_strndup, hf, hm, h0, hdf, hdm, hpo, hstd,
      Nat.not_lt.mpr hk, if_true, if_false, ite_true, ite_false, Option.some.injEq]
    refine ⟨_, rfl, ?_, ?_, ?_⟩
    · rw [hcl0]
      simp [mht_get_set_self]
    · rw [hout_ent]
      simp [mht_get_set_self]
    · intro hne
      rw [hout_ent]
      simp only [Option.getD_some]
      rw [mht_get_set_ne _ _ _ _ (Ne.symm hne)]
      simp [mht_get_set_self]

/-- Witness for C3: reopening the tracked handle 5 from a.txt to b.txt with
the platform returning the fresh handle 9. -/
theorem C3_witness :
    ∃ s7, filetrack_freopen freopenOracle9 std0 sOpen5 (some "b.txt") (some "w") 5 100 (some "m.c") 21 =
        some { ret := CFile.handle 9, platformInvoked := true, state := s7 } ∧
      mht_get ((filetrack_entry_close freopenOracle9.closeInitIndexOk { sOpen5 with errno := 0 } 5
          FileClosedType.FILE_CLOSED_FREOPEN (some "m.c") 21).filetrack_entries.getD []) 5 =
        some { entryOpen5 with is_closed := true, closed_type := FileClosedType.FILE_CLOSED_FREOPEN, close_file := some "m.c", close_line := 21 } ∧
      mht_get (s7.filetrack_entries.getD []) 9 =
        some { stream := 9, filename := some (strnTake "b.txt" 100), mode := some (strnTake "w" FT_MODE_LEN_MAX), open_file := some "m.c", last_change_mode_file := none, close_file := none, open_line := 21, last_change_mode_line := 0, close_line := 0, open_type := FileOpenType.FILE_OPEN_FREOPEN, closed_type := FileClosedType.FILE_NOT_CLOSED, is_closed := false } ∧
      ((9 : Handle) ≠ 5 → mht_get (s7.filetrack_entries.getD []) 5 =
        some { entryOpen5 with is_closed := true, closed_type := FileClosedType.FILE_CLOSED_FREOPEN, close_file := some "m.c", close_line := 21 }) :=
  (C3_reopen_with_filename freopenOracle9 std0 sOpen5 "b.txt" "w" 5 100 (some "m.c") 21
    [(5, entryOpen5)] entryOpen5 (by decide) (by decide) (by decide) (by decide)
    rfl rfl (by decide) (by decide) (by decide) rfl (by decide)).2
    9 rfl (by decide) rfl rfl rfl

/-- C8: a successful mode-change (reopen with absent filename whose platform
call returns the same handle) replaces the stored mode with a bounded copy of
the new mode and records the caller site as the last mode change site, while
leaving the open site, open kind, filename and closed state of the entry
unchanged. -/
theorem C8_mode_change_frame (o : FreopenOracle) (std : StdStreams) (s : FTState)
    (m : String) (stream : Handle) (k : Nat) (fl : Option String) (ln : Int)
    (t : List (Handle × FileTrackEntry)) (e : FileTrackEntry) (ft : String)
    (hm : m ≠ "") (h0 : stream ≠ 0) (hk : 1 ≤ k)
    (hnull : o.strndupNullRes = some ft) (hdm : o.dupModeOk = true)
    (hpo : o.platformReopen = some stream)
    (hin : stream ≠ std.stdinH) (hout : stream ≠ std.stdoutH) (herr : stream ≠ std.stderrH)
    (ht : s.filetrack_entries = some t) (hget : mht_get t stream = some e)
    (hudm : o.updO.dupModeOk = true) :
    ∃ s4, filetrack_freopen o std s none (some m) stream k fl ln =
        some { ret := CFile.handle stream, platformInvoked := true, state := s4 } ∧
      ∃ e2, mht_get (s4.filetrack_entries.getD []) stream = some e2 ∧
        e2 = { e with mode := some (strnTake m FT_MODE_LEN_MAX), last_change_mode_file := fl, last_change_mode_line := ln } ∧
        e2.open_file = e.open_file ∧ e2.open_line = e.open_line ∧ e2.open_type = e.open_type ∧
        e2.filename = e.filename ∧ e2.is_closed = e.is_closed ∧
        e2.mode = some (strnTake m FT_MODE_LEN_MAX) ∧
        e2.last_change_mode_file = fl ∧ e2.last_change_mode_line = ln := by
  have hstd : ¬(stream = std.stdinH ∨ stream = std.stdoutH ∨ stream = std.stderrH) := by
    simp [hin, hout, herr]
  have hupd := entry_update_found o.updO { s with errno := 0 } stream m fl ln t e h0 (by simp [ht]) hget hudm
  simp only [filetrack_freopen, mutils_strndup, hnull, hm, h0, hdm, hpo, hstd,
    Nat.not_lt.mpr hk, if_true, if_false, ite_true, ite_false, Option.some.injEq,
    show ((none : Option String) = some "") = False from by simp, Bool.true_eq_false,
    eq_self_iff_true]
  rw [hupd]
  refine ⟨_, rfl, ?_⟩
  refine ⟨_, ?_, rfl, rfl, rfl, rfl, rfl, rfl, rfl, rfl, rfl⟩
  simp [mht_get_set_self]

/-- Witness for C8: changing the mode of the tracked handle 5 to w. -/
theorem C8_witness :
    ∃ s4, filetrack_freopen freopenOracleSame5 std0 sOpen5 none (some "w") 5 100 (some "m.c") 20 =
        some { ret := CFile.handle 5, platformInvoked := true, state := s4 } ∧
      ∃ e2, mht_get (s4.filetrack_entries.getD []) 5 = some e2 ∧
        e2 = { entryOpen5 with mode := some (strnTake "w" FT_MODE_LEN_MAX), last_change_mode_file := some "m.c", last_change_mode_line := 20 } ∧
        e2.open_file = entryOpen5.open_file ∧ e2.open_line = entryOpen5.open_line ∧ e2.open_type = entryOpen5.open_type ∧
        e2.filename = entryOpen5.filename ∧ e2.is_closed = entryOpen5.is_closed ∧
        e2.mode = some (strnTake "w" FT_MODE_LEN_MAX) ∧
        e2.last_change_mode_file = some "m.c" ∧ e2.last_change_mode_line = 20 :=
  C8_mode_change_frame freopenOracleSame5 std0 sOpen5 "w" 5 100 (some "m.c") 20
    [(5, entryOpen5)] entryOpen5 "x" (by decide) (by decide) (by decide)
    rfl rfl rfl (by decide) (by decide) (by decide) rfl (by decide) rfl

/-- C7 counterexample: after an earlier failure left the last failing
operation name set, a subsequent fully successful open returns a live handle
yet leaves that stale failure name in place: the channel is not cleared to its
neutral state by a successful operation. -/
theorem C7_counterexample :
    (filetrack_fopen fopenOracle5 { filetrack_entries := some [], filename_stream_entries := some [], filetrack_errfunc := some "filetrack_fclose", errno := 0 } (some "a.txt") (some "r") 100 (some "m.c") 7).ret = CFile.handle 5 ∧
    (filetrack_fopen fopenOracle5 { filetrack_entries := some [], filename_stream_entries := some [], filetrack_errfunc := some "filetrack_fclose", errno := 0 } (some "a.txt") (some "r") 100 (some "m.c") 7).state.filetrack_errfunc = some "filetrack_fclose" ∧
    (filetrack_fopen fopenOracle5 { filetrack_entries := some [], filename_stream_entries := some [], filetrack_errfunc := some "filetrack_fclose", errno := 0 } (some "a.txt") (some "r") 100 (some "m.c") 7).state.filetrack_errfunc ≠ none := by
  decide

theorem entry_add_success_errno (o : AddOracle) (s : FTState) (stream : Handle)
    (ot : FileOpenType) (fnStr mdStr : String) (k : Nat) (fl : Option String)
    (ln : Int) (t : List (Handle × FileTrackEntry))
    (h0 : stream ≠ 0) (ht : s.filetrack_entries = some t) (hk : 1 ≤ k)
    (hdf : o.dupFilenameOk = true) (hdm : o.dupModeOk = true)
    (hse : o.setEntryOk = true) :
    (filetrack_entry_add o s stream ot (some fnStr) (some mdStr) k fl ln).errno = s.errno := by
  rw [entry_add_success_eq o s stream ot fnStr mdStr k fl ln t h0 ht hk hdf hdm hse,
    add_index_row_errno]

theorem entry_add_success_errfunc (o : AddOracle) (s : FTState) (stream : Handle)
    (ot : FileOpenType) (fnStr mdStr : String) (k : Nat) (fl : Option String)
    (ln : Int) (t : List (Handle × FileTrackEntry))
    (idx : List (String × FilenameStreamEntry))
    (h0 : stream ≠ 0) (ht : s.filetrack_entries = some t) (hk : 1 ≤ k)
    (hdf : o.dupFilenameOk = true) (hdm : o.dupModeOk = true)
    (hse : o.setEntryOk = true) (hsi : o.setIndexOk = true)
    (hidx : s.filename_stream_entries = some idx) :
    (filetrack_entry_add o s stream ot (some fnStr) (some mdStr) k fl ln).filetrack_errfunc = s.filetrack_errfunc := by
  rw [entry_add_success_eq o s stream ot fnStr mdStr k fl ln t h0 ht hk hdf hdm hse, hsi]
  exact add_index_row_errfunc _ _ _ _ idx (by simp [hidx])

theorem entry_add_tmpfile_errfunc (o : AddOracle) (s : FTState) (stream : Handle)
    (fl : Option String) (ln : Int) (t : List (Handle × FileTrackEntry))
    (h0 : stream ≠ 0) (ht : s.filetrack_entries = some t)
    (hdf : o.dupFilenameOk = true) (hdm : o.dupModeOk = true)
    (hse : o.setEntryOk = true) :
    (filetrack_entry_add o s stream FileOpenType.FILE_OPEN_TMPFILE (some "unknown") (some "(tmpfile)") 8 fl ln).filetrack_errfunc = s.filetrack_errfunc := by
  rw [entry_add_success_eq o s stream FileOpenType.FILE_OPEN_TMPFILE "unknown" "(tmpfile)" 8 fl ln t h0 ht (by decide) hdf hdm hse]
  rw [(by decide : strnTake "(tmpfile)" FT_MODE_LEN_MAX = "(tmpfile)")]
  unfold filetrack_add_index_row
  simp

/-- C7 amended: the error channels are sticky rather than cleared: a fully
successful call through any public wrapper (open, temp-file open, reopen in
both its close-and-reopen and mode-change forms, close, remove) leaves the
per-thread last-failing-operation name exactly as it was before the call, and
leaves errno at whatever value the platform call left behind (the errno value
to restore is stashed after the platform call, so success restores the
post-platform-call value, not necessarily the pre-call value). -/
theorem C7_error_channels_sticky (s : FTState)
    (t : List (Handle × FileTrackEntry)) (idx : List (String × FilenameStreamEntry))
    (fl : Option String) (ln : Int)
    (ht : s.filetrack_entries = some t) (hidx : s.filename_stream_entries = some idx) :
    (∀ (o : FopenOracle) (f m : String) (k : Nat) (h : Handle),
      f ≠ "" → m ≠ "" → 1 ≤ k →
      o.dupFilenameOk = true → o.dupModeOk = true →
      o.platformOpen = some h → h ≠ 0 →
      o.addO.dupFilenameOk = true → o.addO.dupModeOk = true →
      o.addO.setEntryOk = true → o.addO.setIndexOk = true →
      (filetrack_fopen o s (some f) (some m) k fl ln).ret = CFile.handle h ∧
      (filetrack_fopen o s (some f) (some m) k fl ln).state.filetrack_errfunc = s.filetrack_errfunc ∧
      (filetrack_fopen o s (some f) (some m) k fl ln).state.errno = o.platformErrno) ∧
    (∀ (o : TmpfileOracle) (h : Handle),
      o.platformOpen = some h → h ≠ 0 →
      o.addO.dupFilenameOk = true → o.addO.dupModeOk = true → o.addO.setEntryOk = true →
      (filetrack_tmpfile o s fl ln).ret = CFile.handle h ∧
      (filetrack_tmpfile o s fl ln).state.filetrack_errfunc = s.filetrack_errfunc ∧
      (filetrack_tmpfile o s fl ln).state.errno = o.platformErrno) ∧
    (∀ (o : FreopenOracle) (std : StdStreams) (f m : String) (stream ns : Handle) (k : Nat) (e : FileTrackEntry),
      f ≠ "" → m ≠ "" → stream ≠ 0 → 1 ≤ k →
      o.dupFilenameOk = true → o.dupModeOk = true →
      stream ≠ std.stdinH → stream ≠ std.stdoutH → stream ≠ std.stderrH →
      mht_get t stream = some e →
      o.platformReopen = some ns → ns ≠ 0 →
      o.addO.dupFilenameOk = true → o.addO.dupModeOk = true →
      o.addO.setEntryOk = true → o.addO.setIndexOk = true →
      ∃ s7, filetrack_freopen o std s (some f) (some m) stream k fl ln = some { ret := CFile.handle ns, platformInvoked := true, state := s7 } ∧
        s7.filetrack_errfunc = s.filetrack_errfunc ∧ s7.errno = o.platformErrno) ∧
    (∀ (o : FreopenOracle) (std : StdStreams) (m : String) (stream : Handle) (k : Nat) (ft : String) (e : FileTrackEntry),
      m ≠ "" → stream ≠ 0 → 1 ≤ k →
      o.strndupNullRes = some ft → o.dupModeOk = true →
      stream ≠ std.stdinH → stream ≠ std.stdoutH → stream ≠ std.stderrH →
      mht_get t stream = some e →
      o.platformReopen = some stream → o.updO.dupModeOk = true →
      ∃ s4, filetrack_freopen o std s none (some m) stream k fl ln = some { ret := CFile.handle stream, platformInvoked := true, state := s4 } ∧
        s4.filetrack_errfunc = s.filetrack_errfunc ∧ s4.errno = o.platformErrno) ∧
    (∀ (o : FcloseOracle) (std : StdStreams) (stream : Handle) (e : FileTrackEntry),
      stream ≠ 0 → stream ≠ std.stdinH → stream ≠ std.stdoutH → stream ≠ std.stderrH →
      mht_get t stream = some e → e.is_closed = false → o.platformClose = 0 →
      (filetrack_fclose o std s stream fl ln).ret = 0 ∧
      (filetrack_fclose o std s stream fl ln).state.filetrack_errfunc = s.filetrack_errfunc ∧
      (filetrack_fclose o std s stream fl ln).state.errno = o.platformErrno) ∧
    (∀ (o : RemoveOracle) (f : String) (k : Nat),
      f ≠ "" → 1 ≤ k →
      mht_get idx (strnTake f (mutils_strnlen (some f) k)) = none →
      o.platformRemove = 0 →
      (filetrack_remove o s (some f) k fl ln).ret = 0 ∧
      (filetrack_remove o s (some f) k fl ln).state.filetrack_errfunc = s.filetrack_errfunc ∧
      (filetrack_remove o s (some f) k fl ln).state.errno = o.platformErrno) := by
  refine ⟨?_, ?_, ?_, ?_, ?_, ?_⟩
  · intro o f m k h hf hm hk hdf hdm hpo h0 ha1 ha2 ha3 ha4
    have hz : (filetrack_entry_add o.addO ({ ({ s with errno := o.platformErrno } : FTState) with errno := 0 }) h FileOpenType.FILE_OPEN_FOPEN (some f) (some m) k fl ln).errno = 0 := by
      rw [entry_add_success_errno o.addO ({ ({ s with errno := o.platformErrno } : FTState) with errno := 0 }) h FileOpenType.FILE_OPEN_FOPEN f m k fl ln t h0 (by simp [ht]) hk ha1 ha2 ha3]
    have hg := errnoGuard_eq_of_errno_zero "filetrack_fopen" (fun st => filetrack_entry_add o.addO st h FileOpenType.FILE_OPEN_FOPEN (some f) (some m) k fl ln) { s with errno := o.platformErrno } hz
    have hef : (errnoGuard "filetrack_fopen" (fun st => filetrack_entry_add o.addO st h FileOpenType.FILE_OPEN_FOPEN (some f) (some m) k fl ln) { s with errno := o.platformErrno }).filetrack_errfunc = s.filetrack_errfunc := by
      rw [hg]
      show (filetrack_entry_add o.addO ({ ({ s with errno := o.platformErrno } : FTState) with errno := 0 }) h FileOpenType.FILE_OPEN_FOPEN (some f) (some m) k fl ln).filetrack_errfunc = s.filetrack_errfunc
      rw [entry_add_success_errfunc o.addO ({ ({ s with errno := o.platformErrno } : FTState) with errno := 0 }) h FileOpenType.FILE_OPEN_FOPEN f m k fl ln t idx h0 (by simp [ht]) hk ha1 ha2 ha3 ha4 (by simp [hidx])]
    have hen : (errnoGuard "filetrack_fopen" (fun st => filetrack_entry_add o.addO st h FileOpenType.FILE_OPEN_FOPEN (some f) (some m) k fl ln) { s with errno := o.platformErrno }).errno = o.platformErrno := by
      rw [hg]
    have hrun : filetrack_fopen o s (some f) (some m) k fl ln = { ret := CFile.handle h, platformInvoked := true, state := errnoGuard "filetrack_fopen" (fun st => filetrack_entry_add o.addO st h FileOpenType.FILE_OPEN_FOPEN (some f) (some m) k fl ln) { s with errno := o.platformErrno } } := by
      simp [filetrack_fopen, hf, hm, hdf, hdm, hpo, Nat.not_lt.mpr hk]
    refine ⟨?_, ?_, ?_⟩
    · rw [hrun]
    · rw [hrun]
      exact hef
    · rw [hrun]
      exact hen
  · intro o h hpo h0 ha1 ha2 ha3
    have hz : (filetrack_entry_add o.addO ({ ({ s with errno := o.platformErrno } : FTState) with errno := 0 }) h FileOpenType.FILE_OPEN_TMPFILE (some "unknown") (some "(tmpfile)") 8 fl ln).errno = 0 := by
      rw [entry_add_success_errno o.addO ({ ({ s with errno := o.platformErrno } : FTState) with errno := 0 }) h FileOpenType.FILE_OPEN_TMPFILE "unknown" "(tmpfile)" 8 fl ln t h0 (by simp [ht]) (by decide) ha1 ha2 ha3]
    have hg := errnoGuard_eq_of_errno_zero "filetrack_tmpfile" (fun st => filetrack_entry_add o.addO st h FileOpenType.FILE_OPEN_TMPFILE (some "unknown") (some "(tmpfile)") 8 fl ln) { s with errno := o.platformErrno } hz
    have hef : (errnoGuard "filetrack_tmpfile" (fun st => filetrack_entry_add o.addO st h FileOpenType.FILE_OPEN_TMPFILE (some "unknown") (some "(tmpfile)") 8 fl ln) { s with errno := o.platformErrno }).filetrack_errfunc = s.filetrack_errfunc := by
      rw [hg]
      show (filetrack_entry_add o.addO ({ ({ s with errno := o.platformErrno } : FTState) with errno := 0 }) h FileOpenType.FILE_OPEN_TMPFILE (some "unknown") (some "(tmpfile)") 8 fl ln).filetrack_errfunc = s.filetrack_errfunc
      rw [entry_add_tmpfile_errfunc o.addO ({ ({ s with errno := o.platformErrno } : FTState) with errno := 0 }) h fl ln t h0 (by simp [ht]) ha1 ha2 ha3]
    have hen : (errnoGuard "filetrack_tmpfile" (fun st => filetrack_entry_add o.addO st h FileOpenType.FILE_OPEN_TMPFILE (some "unknown") (some "(tmpfile)") 8 fl ln) { s with errno := o.platformErrno }).errno = o.platformErrno := by
      rw [hg]
    have hrun : filetrack_tmpfile o s fl ln = { ret := CFile.handle h, platformInvoked := true, state := errnoGuard "filetrack_tmpfile" (fun st => filetrack_entry_add o.addO st h FileOpenType.FILE_OPEN_TMPFILE (some "unknown") (some "(tmpfile)") 8 fl ln) { s with errno := o.platformErrno } } := by
      simp [filetrack_tmpfile, hpo]
    refine ⟨?_, ?_, ?_⟩
    · rw [hrun]
    · rw [hrun]
      exact hef
    · rw [hrun]
      exact hen
  · intro o std f m stream ns k e hf hm h0 hk hdf hdm hin hout herr hget hpo hns0 ha1 ha2 ha3 ha4
    have hstd : ¬(stream = std.stdinH ∨ stream = std.stdoutH ∨ stream = std.stderrH) := by
      simp [hin, hout, herr]
    have hcl := entry_close_found o.closeInitIndexOk ({ ({ s with errno := o.platformErrno } : FTState) with errno := 0 }) stream FileClosedType.FILE_CLOSED_FREOPEN fl ln t e h0 (by simp [ht]) hget
    have hz1 : (filetrack_entry_close o.closeInitIndexOk ({ ({ s with errno := o.platformErrno } : FTState) with errno := 0 }) stream FileClosedType.FILE_CLOSED_FREOPEN fl ln).errno = 0 := by
      rw [hcl]
    have hg1 := errnoGuard_eq_of_errno_zero "filetrack_freopen" (fun st => filetrack_entry_close o.closeInitIndexOk st stream FileClosedType.FILE_CLOSED_FREOPEN fl ln) { s with errno := o.platformErrno } hz1
    have hpre2_ent : ({ (errnoGuard "filetrack_freopen" (fun st => filetrack_entry_close o.closeInitIndexOk st stream FileClosedType.FILE_CLOSED_FREOPEN fl ln) { s with errno := o.platformErrno }) with errno := 0 } : FTState).filetrack_entries = some (mht_set t stream { e with is_closed := true, closed_type := FileClosedType.FILE_CLOSED_FREOPEN, close_file := fl, close_line := ln }) := by
      rw [show ({ (errnoGuard "filetrack_freopen" (fun st => filetrack_entry_close o.closeInitIndexOk st stream FileClosedType.FILE_CLOSED_FREOPEN fl ln) { s with errno := o.platformErrno }) with errno := 0 } : FTState).filetrack_entries = (errnoGuard "filetrack_freopen" (fun st => filetrack_entry_close o.closeInitIndexOk st stream FileClosedType.FILE_CLOSED_FREOPEN fl ln) { s with errno := o.platformErrno }).filetrack_entries from rfl]
      rw [errnoGuard_entries]
      rw [hcl]
    have hpre2_idx : ({ (errnoGuard "filetrack_freopen" (fun st => filetrack_entry_close o.closeInitIndexOk st stream FileClosedType.FILE_CLOSED_FREOPEN fl ln) { s with errno := o.platformErrno }) with errno := 0 } : FTState).filename_stream_entries = some idx := by
      rw [show ({ (errnoGuard "filetrack_freopen" (fun st => filetrack_entry_close o.closeInitIndexOk st stream FileClosedType.FILE_CLOSED_FREOPEN fl ln) { s with errno := o.platformErrno }) with errno := 0 } : FTState).filename_stream_entries = (errnoGuard "filetrack_freopen" (fun st => filetrack_entry_close o.closeInitIndexOk st stream FileClosedType.FILE_CLOSED_FREOPEN fl ln) { s with errno := o.platformErrno }).filename_stream_entries from rfl]
      rw [hg1]
      show (filetrack_entry_close o.closeInitIndexOk ({ ({ s with errno := o.platformErrno } : FTState) with errno := 0 }) stream FileClosedType.FILE_CLOSED_FREOPEN fl ln).filename_stream_entries = some idx
      rw [hcl]
      exact hidx
    have hz2 : (filetrack_entry_add o.addO ({ (errnoGuard "filetrack_freopen" (fun st => filetrack_entry_close o.closeInitIndexOk st stream FileClosedType.FILE_CLOSED_FREOPEN fl ln) { s with errno := o.platformErrno }) with errno := 0 } : FTState) ns FileOpenType.FILE_OPEN_FREOPEN (some f) (some m) k fl ln).errno = 0 := by
      rw [entry_add_success_errno o.addO ({ (errnoGuard "filetrack_freopen" (fun st => filetrack_entry_close o.closeInitIndexOk st stream FileClosedType.FILE_CLOSED_FREOPEN fl ln) { s with errno := o.platformErrno }) with errno := 0 } : FTState) ns FileOpenType.FILE_OPEN_FREOPEN f m k fl ln (mht_set t stream { e with is_closed := true, closed_type := FileClosedType.FILE_CLOSED_FREOPEN, close_file := fl, close_line := ln }) hns0 hpre2_ent hk ha1 ha2 ha3]
    have hg2 := errnoGuard_eq_of_errno_zero "filetrack_freopen" (fun st => filetrack_entry_add o.addO st ns FileOpenType.FILE_OPEN_FREOPEN (some f) (some m) k fl ln) (errnoGuard "filetrack_freopen" (fun st => filetrack_entry_close o.closeInitIndexOk st stream FileClosedType.FILE_CLOSED_FREOPEN fl ln) { s with errno := o.platformErrno }) hz2
    have hef : (errnoGuard "filetrack_freopen" (fun st => filetrack_entry_add o.addO st ns FileOpenType.FILE_OPEN_FREOPEN (some f) (some m) k fl ln) (errnoGuard "filetrack_freopen" (fun st => filetrack_entry_close o.closeInitIndexOk st stream FileClosedType.FILE_CLOSED_FREOPEN fl ln) { s with errno := o.platformErrno })).filetrack_errfunc = s.filetrack_errfunc := by
      rw [hg2]
      show (filetrack_entry_add o.addO ({ (errnoGuard "filetrack_freopen" (fun st => filetrack_entry_close o.closeInitIndexOk st stream FileClosedType.FILE_CLOSED_FREOPEN fl ln) { s with errno := o.platformErrno }) with errno := 0 } : FTState) ns FileOpenType.FILE_OPEN_FREOPEN (some f) (some m) k fl ln).filetrack_errfunc = s.filetrack_errfunc
      rw [entry_add_success_errfunc o.addO ({ (errnoGuard "filetrack_freopen" (fun st => filetrack_entry_close o.closeInitIndexOk st stream FileClosedType.FILE_CLOSED_FREOPEN fl ln) { s with errno := o.platformErrno }) with errno := 0 } : FTState) ns FileOpenType.FILE_OPEN_FREOPEN f m k fl ln (mht_set t stream { e with is_closed := true, closed_type := FileClosedType.FILE_CLOSED_FREOPEN, close_file := fl, close_line := ln }) idx hns0 hpre2_ent hk ha1 ha2 ha3 ha4 hpre2_idx]
      rw [show ({ (errnoGuard "filetrack_freopen" (fun st => filetrack_entry_close o.closeInitIndexOk st stream FileClosedType.FILE_CLOSED_FREOPEN fl ln) { s with errno := o.platformErrno }) with errno := 0 } : FTState).filetrack_errfunc = (errnoGuard "filetrack_freopen" (fun st => filetrack_entry_close o.closeInitIndexOk st stream FileClosedType.FILE_CLOSED_FREOPEN fl ln) { s with errno := o.platformErrno }).filetrack_errfunc from rfl]
      rw [hg1]
      show (filetrack_entry_close o.closeInitIndexOk ({ ({ s with errno := o.platformErrno } : FTState) with errno := 0 }) stream FileClosedType.FILE_CLOSED_FREOPEN fl ln).filetrack_errfunc = s.filetrack_errfunc
      rw [hcl]
    have hen : (errnoGuard "filetrack_freopen" (fun st => filetrack_entry_add o.addO st ns FileOpenType.FILE_OPEN_FREOPEN (some f) (some m) k fl ln) (errnoGuard "filetrack_freopen" (fun st => filetrack_entry_close o.closeInitIndexOk st stream FileClosedType.FILE_CLOSED_FREOPEN fl ln) { s with errno := o.platformErrno })).errno = o.platformErrno := by
      rw [hg2]
      show (errnoGuard "filetrack_freopen" (fun st => filetrack_entry_close o.closeInitIndexOk st stream FileClosedType.FILE_CLOSED_FREOPEN fl ln) { s with errno := o.platformErrno }).errno = o.platformErrno
      rw [hg1]
    have hrun : filetrack_freopen o std s (some f) (some m) stream k fl ln = some { ret := CFile.handle ns, platformInvoked := true, state := errnoGuard "filetrack_freopen" (fun st => filetrack_entry_add o.addO st ns FileOpenType.FILE_OPEN_FREOPEN (some f) (some m) k fl ln) (errnoGuard "filetrack_freopen" (fun st => filetrack_entry_close o.closeInitIndexOk st stream FileClosedType.FILE_CLOSED_FREOPEN fl ln) { s with errno := o.platformErrno }) } := by
      simp [filetrack_freopen, mutils_strndup, hf, hm, h0, hdf, hdm, hpo, hstd, Nat.not_lt.mpr hk]
    exact ⟨_, hrun, hef, hen⟩
  · intro o std m stream k ft e hm h0 hk hnull hdm hin hout herr hget hpo hudm
    have hstd : ¬(stream = std.stdinH ∨ stream = std.stdoutH ∨ stream = std.stderrH) := by
      simp [hin, hout, herr]
    have hupd := entry_update_found o.updO { s with errno := 0 } stream m fl ln t e h0 (by simp [ht]) hget hudm
    have hrun : filetrack_freopen o std s none (some m) stream k fl ln = some { ret := CFile.handle stream, platformInvoked := true, state := { s with filetrack_entries := some (mht_set t stream { e with mode := some (strnTake m FT_MODE_LEN_MAX), last_change_mode_file := fl, last_change_mode_line := ln }), errno := o.platformErrno } } := by
      simp [filetrack_freopen, mutils_strndup, hnull, hm, h0, hdm, hpo, hstd, Nat.not_lt.mpr hk, hupd]
    exact ⟨_, hrun, rfl, rfl⟩
  · intro o std stream e h0 hin hout herr hget hic hpc
    have hcl := entry_close_found o.initIndexOk ({ ({ s with errno := o.platformErrno } : FTState) with errno := 0 }) stream FileClosedType.FILE_CLOSED_FCLOSE fl ln t e h0 (by simp [ht]) hget
    have hz : (filetrack_entry_close o.initIndexOk ({ ({ s with errno := o.platformErrno } : FTState) with errno := 0 }) stream FileClosedType.FILE_CLOSED_FCLOSE fl ln).errno = 0 := by
      rw [hcl]
    have hg := errnoGuard_eq_of_errno_zero "filetrack_fclose" (fun st => filetrack_entry_close o.initIndexOk st stream FileClosedType.FILE_CLOSED_FCLOSE fl ln) { s with errno := o.platformErrno } hz
    have hef : (errnoGuard "filetrack_fclose" (fun st => filetrack_entry_close o.initIndexOk st stream FileClosedType.FILE_CLOSED_FCLOSE fl ln) { s with errno := o.platformErrno }).filetrack_errfunc = s.filetrack_errfunc := by
      rw [hg]
      show (filetrack_entry_close o.initIndexOk ({ ({ s with errno := o.platformErrno } : FTState) with errno := 0 }) stream FileClosedType.FILE_CLOSED_FCLOSE fl ln).filetrack_errfunc = s.filetrack_errfunc
      rw [hcl]
    have hen : (errnoGuard "filetrack_fclose" (fun st => filetrack_entry_close o.initIndexOk st stream FileClosedType.FILE_CLOSED_FCLOSE fl ln) { s with errno := o.platformErrno }).errno = o.platformErrno := by
      rw [hg]
    have hrun : filetrack_fclose o std s stream fl ln = { ret := 0, platformInvoked := true, state := errnoGuard "filetrack_fclose" (fun st => filetrack_entry_close o.initIndexOk st stream FileClosedType.FILE_CLOSED_FCLOSE fl ln) { s with errno := o.platformErrno } } := by
      simp [filetrack_fclose, h0, hin, hout, herr, ht, hget, hic, hpc]
    refine ⟨?_, ?_, ?_⟩
    · rw [hrun]
    · rw [hrun]
      exact hef
    · rw [hrun]
      exact hen
  · intro o f k hf hk hnone hrm
    have hdata : f.data ≠ [] := by
      intro hh
      apply hf
      cases f with
      | mk d =>
        simp only at hh
        rw [hh]
    have hpos : 0 < f.data.length := List.length_pos.mpr hdata
    have hlen : mutils_strnlen (some f) k ≠ 0 := by
      simp only [mutils_strnlen]
      omega
    have hrun : filetrack_remove o s (some f) k fl ln = { ret := 0, platformInvoked := true, state := { s with errno := o.platformErrno } } := by
      simp [filetrack_remove, can_be_removed_check, hf, Nat.not_lt.mpr hk, hidx, hlen, hnone, hrm]
    refine ⟨?_, ?_, ?_⟩ <;> rw [hrun]

/-- Witness for C7 amended: a successful open on a state carrying a stale
failure name returns the live handle 5, leaves the stale name in place, and
leaves errno at the value the platform call left behind. -/
theorem C7_witness :
    (filetrack_fopen fopenOracle5 { sReady with filetrack_errfunc := some "filetrack_remove" } (some "a.txt") (some "r") 100 (some "m.c") 7).ret = CFile.handle 5 ∧
    (filetrack_fopen fopenOracle5 { sReady with filetrack_errfunc := some "filetrack_remove" } (some "a.txt") (some "r") 100 (some "m.c") 7).state.filetrack_errfunc = ({ sReady with filetrack_errfunc := some "filetrack_remove" } : FTState).filetrack_errfunc ∧
    (filetrack_fopen fopenOracle5 { sReady with filetrack_errfunc := some "filetrack_remove" } (some "a.txt") (some "r") 100 (some "m.c") 7).state.errno = fopenOracle5.platformErrno :=
  (C7_error_channels_sticky { sReady with filetrack_errfunc := some "filetrack_remove" } [] [] (some "m.c") 7 rfl rfl).1
    fopenOracle5 "a.txt" "r" 100 5 (by decide) (by decide) (by decide) rfl rfl rfl (by decide) rfl rfl rfl rfl

/-- C9 counterexample: the public sequence add then low-level close with kind
FILE_NOT_CLOSED yields an entry with is_closed true but closed_type
FILE_NOT_CLOSED, so the first two of the three conditions disagree and the
pairwise equivalence fails for an entry reachable by public operations. -/
theorem C9_counterexample :
    (mht_get ((filetrack_entry_close true (filetrack_entry_add addOracleOk sReady 1 FileOpenType.FILE_OPEN_FOPEN (some "a.txt") (some "r") 100 (some "f.c") 1) 1 FileClosedType.FILE_NOT_CLOSED (some "f.c") 2).filetrack_entries.getD []) 1).map
      (fun e => (e.is_closed, e.closed_type)) = some (true, FileClosedType.FILE_NOT_CLOSED) := by
  decide

/-- C9 amended: for every state reachable by the public operations, where the
close transitions carry a definite closed kind (not NOT_CLOSED) and a present
caller site (the form every in-repo caller uses), the three conditions
is_closed false, closed_type NOT_CLOSED and close_site absent are pairwise
equivalent for every entry of the registry. -/
theorem C9_closed_marking_invariant (s : FTState) (hre : Reachable s) (h : Handle)
    (e : FileTrackEntry)
    (hget : mht_get (s.filetrack_entries.getD []) h = some e) :
    (e.is_closed = false ↔ e.closed_type = FileClosedType.FILE_NOT_CLOSED) ∧
    (e.is_closed = false ↔ e.close_file = none) ∧
    (e.closed_type = FileClosedType.FILE_NOT_CLOSED ↔ e.close_file = none) := by
  have hs := stateOk_reachable s hre
  have he := hs _ (mht_get_mem _ _ _ hget)
  exact ⟨he.1, he.2, he.1.symm.trans he.2⟩

/-- Witness for C9 at the state reached by one successful add of handle 1. -/
theorem C9_witness :
    (c9entry.is_closed = false ↔ c9entry.closed_type = FileClosedType.FILE_NOT_CLOSED) ∧
    (c9entry.is_closed = false ↔ c9entry.close_file = none) ∧
    (c9entry.closed_type = FileClosedType.FILE_NOT_CLOSED ↔ c9entry.close_file = none) :=
  C9_closed_marking_invariant
    (filetrack_entry_add addOracleOk ftInitialState 1 FileOpenType.FILE_OPEN_FOPEN (some "a.txt") (some "r") 100 (some "f.c") 1)
    (Relation.ReflTransGen.single (FTStep.add ftInitialState addOracleOk 1 FileOpenType.FILE_OPEN_FOPEN (some "a.txt") (some "r") 100 (some "f.c") 1))
    1 c9entry (by decide)

end Filetrack
